import Mathlib

/-!
Shallow embedding of the payment orchestration and reconciliation core of
`src/src/payments/payments.service.ts` (class `PaymentsService`), together with
the configuration behaviour of `src/config/config.service.ts`.

Modelling conventions:
* TypeScript `string | null | undefined` becomes `Option String`; JavaScript
  truthiness on strings (`if (s)` is false for `null`, `undefined` and `""`)
  is `strTruthy`; `a || b` on strings is `jsOr`/`jsOrO`; `a ?? b` is
  `Option.orElse`/`Option.getD`.
* Prisma `Decimal` amounts become `Int` (no arithmetic on them is performed by
  the code under study, they are only copied around).
* The collaborators that live outside this repository (PagSeguro gateway
  adapter, antifraud scorer, notification mailer, the HMAC primitive of the
  node `crypto` module and the environment-variable configuration) are an
  explicit `Env` record of pure functions; fallible collaborator calls return
  `Except Err`.
* The Prisma store is an explicit `DB` value threaded through each operation;
  `prisma.$transaction([...])` (atomic multi-row update, a guarantee of the
  out-of-scope store) is a single `DB → DB` step guarded by `Env.dbTxnOk`.
* Every operation also returns a `List Ev` trace of the externally observable
  steps it performed, in order, so that "X happens before Y" and "X never
  happens" sentences of the specification are statable.
* NestJS exception classes become the `Err` inductive
  (`InternalServerErrorException` = `Err.internal`, `BadRequestException` =
  `Err.badRequest`, `NotFoundException` = `Err.notFound`,
  `UnauthorizedException` = `Err.unauthorized`), keeping the message strings.
-/

/-- Canonical order status, Prisma enum `OrderStatus`. -/
inductive OrderStatus
  | PENDING
  | PAID
  | CANCELLED
  | SHIPPED
  | DELIVERED
deriving DecidableEq

/-- The string a Prisma `OrderStatus` enum value carries at runtime (used where
the TypeScript code compares a free-form `Transaction.status` string against an
`OrderStatus` value, or stores an `OrderStatus` into the string column). -/
def OrderStatus.toStr : OrderStatus → String
  | .PENDING => "PENDING"
  | .PAID => "PAID"
  | .CANCELLED => "CANCELLED"
  | .SHIPPED => "SHIPPED"
  | .DELIVERED => "DELIVERED"

/-- Prisma enum `TransactionType` (only `PAYMENT` is used). -/
inductive TransactionType
  | PAYMENT
deriving DecidableEq

/-- NestJS exception taxonomy as thrown by the service. -/
inductive Err
  | notFound (msg : String)
  | badRequest (msg : String)
  | unauthorized (msg : String)
  | internal (msg : String)
deriving DecidableEq

/-- JavaScript truthiness of a nullable string: `null`, `undefined` and `""`
are falsy, every other string is truthy. -/
def strTruthy : Option String → Bool
  | none => false
  | some s => s != ""

/-- JavaScript `a || b` where `a` is a nullable string and `b` a string. -/
def jsOr (a : Option String) (b : String) : String :=
  match a with
  | none => b
  | some s => if s = "" then b else s

/-- JavaScript `a || b` where both operands are nullable strings. -/
def jsOrO (a b : Option String) : Option String :=
  match a with
  | none => b
  | some s => if s = "" then b else some s

/-- Joined `User` row as surfaced on `OrderWithDetails.user`. -/
structure UserRec where
  name : String
  email : String
  phone : Option String
  cpf : Option String
deriving DecidableEq

/-- One `order.items` element (product join plus quantity/price snapshot). -/
structure OrderItemRec where
  productId : String
  productName : String
  productPrice : Int
  quantity : Nat
  price : Int
deriving DecidableEq

/-- The `OrderWithDetails` shape returned by `ordersService.findOneById`. -/
structure OrderWithDetails where
  id : String
  status : OrderStatus
  userId : Option String
  guestId : Option String
  user : Option UserRec
  guestEmail : Option String
  guestPhone : Option String
  guestCpf : Option String
  totalAmount : Int
  shippingService : Option String
  shippingPrice : Int
  shippingAddressZipCode : String
  shippingAddressStreet : String
  shippingAddressNumber : String
  shippingAddressComplement : Option String
  shippingAddressNeighborhood : String
  shippingAddressCity : String
  shippingAddressState : String
  items : List OrderItemRec
deriving DecidableEq

/-- A persisted `Transaction` row. -/
structure Txn where
  id : String
  userId : Option String
  orderId : Option String
  amount : Int
  type : TransactionType
  status : String
  description : Option String
  gatewayTransactionId : Option String
  transactionRef : Option String
  qrCodeUrl : Option String
  antifraudStatus : Option String
  updatedAt : String
deriving DecidableEq

/-- The Prisma store: orders (with their joined details) and transactions. -/
structure DB where
  orders : List OrderWithDetails
  transactions : List Txn
deriving DecidableEq

/-- `ordersService.findOneById` (a lookup in the store by order id). -/
def findOneById (db : DB) (orderId : String) : Option OrderWithDetails :=
  db.orders.find? (fun o => o.id == orderId)

/-- `prisma.transaction.findUnique({ where: { orderId } })`, the private
`getExistingPaymentTransaction` helper. -/
def getExistingPaymentTransaction (db : DB) (orderId : String) : Option Txn :=
  db.transactions.find? (fun t => t.orderId == some orderId)

/-- `prisma.transaction.findFirst({ where: { gatewayTransactionId } })`. -/
def findTxnByGatewayId (db : DB) (gwId : String) : Option Txn :=
  db.transactions.find? (fun t => t.gatewayTransactionId == some gwId)

/-- Private `mapPixStatus` of `PaymentsService`. -/
def mapPixStatus (externalStatus : Option String) : String :=
  match externalStatus with
  | some "PAID" => "COMPLETED"
  | some "CONFIRMED" => "COMPLETED"
  | some "COMPLETED" => "COMPLETED"
  | some "CANCELED" => "CANCELED"
  | some "EXPIRED" => "EXPIRED"
  | some "FAILED" => "FAILED"
  | _ => "PENDING"

/-- Private `mapPagSeguroStatusToOrderStatus` of `PaymentsService`. -/
def mapPagSeguroStatusToOrderStatus (pagSeguroStatus : String) : OrderStatus :=
  match pagSeguroStatus with
  | "PAID" => .PAID
  | "APPROVED" => .PAID
  | "IN_ANALYSIS" => .PENDING
  | "PENDING" => .PENDING
  | "CANCELED" => .CANCELLED
  | "ABORTED" => .CANCELLED
  | "REFUNDED" => .SHIPPED
  | "SHIPPED" => .SHIPPED
  | "DELIVERED" => .DELIVERED
  | _ => .PENDING

/-- Private `ensureOrderOwnership` of `PaymentsService`. `requesterId` is the
possibly-absent requester identity; JavaScript truthiness (`if (order.userId)`,
`if (!requesterId)`) is rendered with `strTruthy`. -/
def ensureOrderOwnership (order : OrderWithDetails) (requesterId : Option String) :
    Except Err Unit :=
  if strTruthy order.userId then
    if !strTruthy requesterId || order.userId != requesterId then
      .error (.badRequest "Acesso não autorizado a este pedido.")
    else
      .ok ()
  else if !strTruthy order.guestId then
    .error (.badRequest "Pedido sem identificador de convidado definido.")
  else if !strTruthy requesterId || order.guestId != requesterId then
    .error (.badRequest "Acesso não autorizado ao pedido de convidado.")
  else
    .ok ()

/-- Payload `customer` object built by `buildPagSeguroPayload`. -/
structure Customer where
  email : String
  fullName : String
  phone : Option String
  cpf : Option String
deriving DecidableEq

/-- Payload `shippingAddress` object built by `buildPagSeguroPayload`. -/
structure ShippingAddress where
  cep : String
  street : String
  number : String
  complement : Option String
  neighborhood : String
  city : String
  state : String
deriving DecidableEq

/-- One payload `items` element (`unit_amount: new Decimal(item.price)`). -/
structure PayloadItem where
  name : String
  quantity : Nat
  unit_amount : Int
deriving DecidableEq

/-- The `{ customer, shippingAddress, items }` triple that
`buildPagSeguroPayload` returns. -/
structure PaymentPayloadParts where
  customer : Customer
  shippingAddress : ShippingAddress
  items : List PayloadItem
deriving DecidableEq

/-- Private `buildPagSeguroPayload` of `PaymentsService`. Nullish (`??`) and
truthiness (`|| undefined` after `.trim()`) coalescing follow the source. -/
def buildPagSeguroPayload (order : OrderWithDetails) : PaymentPayloadParts :=
  let customerEmail := ((order.user.map UserRec.email).orElse (fun _ => order.guestEmail)).getD ""
  let customerFullName := (order.user.map UserRec.name).getD "Cliente Convidado"
  let phoneRaw := (((order.user.bind UserRec.phone).orElse (fun _ => order.guestPhone)).getD "").trim
  let customerPhone := if phoneRaw = "" then none else some phoneRaw
  let customerCpf := (order.user.bind UserRec.cpf).orElse (fun _ => order.guestCpf)
  { customer :=
      { email := customerEmail
        fullName := customerFullName
        phone := customerPhone
        cpf := customerCpf }
    shippingAddress :=
      { cep := order.shippingAddressZipCode
        street := order.shippingAddressStreet
        number := order.shippingAddressNumber
        complement := order.shippingAddressComplement
        neighborhood := order.shippingAddressNeighborhood
        city := order.shippingAddressCity
        state := order.shippingAddressState }
    items := order.items.map (fun item =>
      { name := item.productName
        quantity := item.quantity
        unit_amount := item.price }) }

/-- One antifraud request item. -/
structure AntifraudItem where
  productId : String
  quantity : Nat
  price : Int
deriving DecidableEq

/-- Optional card metadata forwarded to the antifraud scorer. -/
structure CardMeta where
  brand : Option String
  installments : Option Nat
deriving DecidableEq

/-- Argument of `antifraudService.analyzeTransaction`. -/
structure AntifraudRequest where
  orderId : String
  amount : Int
  customerEmail : String
  customerCpf : Option String
  paymentMethod : String
  items : List AntifraudItem
  cardDetails : Option CardMeta
deriving DecidableEq

/-- Result of `antifraudService.analyzeTransaction` (`status` is the verdict
string: `APPROVED`, `DENIED`, `REVIEW`, ...). -/
structure AntifraudResult where
  status : String
deriving DecidableEq

/-- The antifraud request each initiation flow assembles, differing only in
the payment-method tag and card metadata. -/
def antifraudRequestFor (order : OrderWithDetails) (parts : PaymentPayloadParts)
    (paymentMethod : String) (cardDetails : Option CardMeta) : AntifraudRequest :=
  { orderId := order.id
    amount := order.totalAmount
    customerEmail := parts.customer.email
    customerCpf := parts.customer.cpf
    paymentMethod := paymentMethod
    items := order.items.map (fun item =>
      { productId := item.productId
        quantity := item.quantity
        price := item.price })
    cardDetails := cardDetails }

/-- Common body of the three gateway-create payloads. -/
structure PagSeguroChargePayload where
  orderId : String
  amount : Int
  description : String
  customer : Customer
  shippingAddress : ShippingAddress
  shippingService : Option String
  shippingPrice : Int
  items : List PayloadItem
deriving DecidableEq

/-- `cardDetails` object passed to `processDirectCreditCardPayment`. -/
structure CardDetails where
  token : String
  holderName : String
  cpf : String
  installments : Option Nat
deriving DecidableEq

/-- Payload of `pagSeguroService.processDirectCreditCardPayment`. -/
structure CardChargePayload where
  base : PagSeguroChargePayload
  cardDetails : CardDetails
deriving DecidableEq

/-- `PixChargeResponseDto`, also the shape returned by
`pagSeguroService.createPagSeguroPixCharge`. -/
structure PixChargeResponse where
  transactionId : String
  status : String
  brCode : String
  qrCodeImage : String
  expiresAt : String
  amount : Int
  description : String
  orderId : String
deriving DecidableEq

/-- Shape returned by `pagSeguroService.processDirectCreditCardPayment`. -/
structure CardChargeGatewayResponse where
  transactionId : String
  status : String
  transactionRef : String
deriving DecidableEq

/-- Shape returned by `pagSeguroService.createPagSeguroCheckoutRedirect`. -/
structure RedirectGatewayResponse where
  pagSeguroCheckoutId : String
  redirectUrl : String
deriving DecidableEq

/-- A `links` element of a PagSeguro checkout / QR code. -/
structure PsLink where
  rel : String
  href : String
deriving DecidableEq

/-- A `charges` element of PagSeguro checkout details. -/
structure PsCharge where
  id : Option String
  status : Option String
deriving DecidableEq

/-- Shape returned by `pagSeguroService.getCheckoutDetails`. -/
structure CheckoutDetails where
  id : Option String
  status : Option String
  charges : List PsCharge
  links : List PsLink
deriving DecidableEq

/-- A `qr_codes` element of PagSeguro order details. -/
structure PsQrCode where
  status : Option String
  text : Option String
  links : List PsLink
  expiration_date : Option String
deriving DecidableEq

/-- Shape returned by `pagSeguroService.getOrderDetails`. -/
structure PsOrderDetails where
  qr_codes : List PsQrCode
deriving DecidableEq

/-- Shape returned by `buildExistingDirectCardResponse` (the source types the
whole card flow as `any`; `transactionRef` can be `null` on the live path). -/
structure CardExistingResponse where
  transactionId : String
  status : String
  transactionRef : Option String
  amount : Int
  description : String
  orderId : String
deriving DecidableEq

/-- Result of `processCreditCardPayment` (typed `any` in the source): either
the fresh gateway response or the reconstruction of an existing one. -/
inductive CardPaymentResult
  | fresh (r : CardChargeGatewayResponse)
  | existing (r : CardExistingResponse)
deriving DecidableEq

/-- The gateway transaction id referenced by a `processCreditCardPayment`
result (both shapes carry a `transactionId` field). -/
def CardPaymentResult.transactionId : CardPaymentResult → String
  | .fresh r => r.transactionId
  | .existing r => r.transactionId

/-- Result of `initiatePagSeguroRedirectCheckout`: the declared return type is
`{ redirectUrl: string }`; the existing-transaction path additionally carries
`pagSeguroCheckoutId`, so that field is optional here. -/
structure RedirectResponse where
  redirectUrl : String
  pagSeguroCheckoutId : Option String
deriving DecidableEq

/-- External collaborators and configuration, as pure functions. `backendUrl`
is `""` when `BACKEND_URL` is unset (the config getter defaults to `''`);
`pagSeguroWebhookSecret` is `none` when `PAGSEGURO_WEBHOOK_SECRET` is unset
(the config getter throws in that case). `dbTxnOk` tells whether the atomic
`prisma.$transaction` batch commits. `newTxnId`/`now` supply the id and
timestamp of a created `Transaction` row. -/
structure Env where
  hmacSha256Hex : String → String → String
  pagSeguroWebhookSecret : Option String
  backendUrl : String
  now : String
  newTxnId : String
  analyzeTransaction : AntifraudRequest → Except Err AntifraudResult
  createPagSeguroPixCharge : PagSeguroChargePayload → String → Except Err PixChargeResponse
  processDirectCreditCardPayment : CardChargePayload → String → Except Err CardChargeGatewayResponse
  createPagSeguroCheckoutRedirect : PagSeguroChargePayload → String → Except Err RedirectGatewayResponse
  getCheckoutDetails : String → Except Err CheckoutDetails
  getOrderDetails : String → Except Err PsOrderDetails
  sendPaymentConfirmationEmail : String → String → Int → Except Err Unit
  sendPaymentCancellationEmail : String → String → Except Err Unit
  dbTxnOk : Bool

/-- Externally observable steps, in execution order: store lookups, antifraud
and gateway calls, store writes and notification attempts. -/
inductive Ev
  | findOrder (orderId : String)
  | findTxnByOrder (orderId : String)
  | findTxnByGateway (gwId : String)
  | antifraudCheck (orderId : String)
  | gwCreatePix (orderId : String)
  | gwCreateCard (orderId : String)
  | gwCreateRedirect (orderId : String)
  | gwGetCheckoutDetails (gwId : String)
  | gwGetOrderDetails (gwId : String)
  | txnCreate (orderId : String)
  | orderUpdate (orderId : String)
  | dbAtomicStatusUpdate (txnId orderId : String)
  | emailConfirm (recipient : String)
  | emailCancel (recipient : String)
deriving DecidableEq

/-- Gateway-create or transaction-create steps (the ones an idempotent
short-circuit must not perform). -/
def Ev.isCreateStep : Ev → Bool
  | .gwCreatePix _ => true
  | .gwCreateCard _ => true
  | .gwCreateRedirect _ => true
  | .txnCreate _ => true
  | _ => false

/-- Gateway-create steps only. -/
def Ev.isGatewayCreate : Ev → Bool
  | .gwCreatePix _ => true
  | .gwCreateCard _ => true
  | .gwCreateRedirect _ => true
  | _ => false

/-- Store-write steps (transaction creation or any status update). -/
def Ev.isWriteStep : Ev → Bool
  | .txnCreate _ => true
  | .orderUpdate _ => true
  | .dbAtomicStatusUpdate _ _ => true
  | _ => false

/-- The `catch` block shared (up to its generic message) by the three
initiation flows: an `InternalServerErrorException` whose message starts with
`Falha no PagSeguro:` is re-thrown as-is, anything else is normalized to the
flow's generic `InternalServerErrorException`. -/
def wrapInitError (generic : String) (e : Err) : Err :=
  match e with
  | .internal msg =>
    if msg.startsWith "Falha no PagSeguro:" then .internal msg else .internal generic
  | _ => .internal generic

/-- The `description` string shared by the three gateway-create payloads. -/
def pagDescription (order : OrderWithDetails) : String :=
  "Pagamento do Pedido #" ++ order.id ++ " na MKCloset"

/-- The gateway-create payload shared by the three initiation flows. -/
def chargePayload (order : OrderWithDetails) (parts : PaymentPayloadParts) :
    PagSeguroChargePayload :=
  { orderId := order.id
    amount := order.totalAmount
    description := pagDescription order
    customer := parts.customer
    shippingAddress := parts.shippingAddress
    shippingService := order.shippingService
    shippingPrice := order.shippingPrice
    items := parts.items }

/-- The error thrown by all three reconstruction helpers when the stored
transaction has no (truthy) PagSeguro id. -/
def missingGatewayIdError : Err :=
  .internal "Transação existente sem ID do PagSeguro."

/-- The `catch` branch of `buildPixResponseFromTransaction`: degrade to the
locally stored snapshot. -/
def pixFallbackResponse (txn : Txn) (gid : String) : PixChargeResponse :=
  { transactionId := gid
    status := mapPixStatus (some txn.status)
    brCode := txn.transactionRef.getD ""
    qrCodeImage := txn.qrCodeUrl.getD ""
    expiresAt := txn.updatedAt
    amount := txn.amount
    description := txn.description.getD ""
    orderId := txn.orderId.getD "" }

/-- Private `buildPixResponseFromTransaction` of `PaymentsService`. -/
def buildPixResponseFromTransaction (env : Env) (txn : Txn) :
    Except Err PixChargeResponse × List Ev :=
  match txn.gatewayTransactionId with
  | none => (.error missingGatewayIdError, [])
  | some gid =>
    if gid = "" then (.error missingGatewayIdError, [])
    else
      match env.getOrderDetails gid with
      | .error _ => (.ok (pixFallbackResponse txn gid), [.gwGetOrderDetails gid])
      | .ok checkout =>
        let qrCode := checkout.qr_codes.head?
        (.ok
          { transactionId := gid
            status := mapPixStatus (some (jsOr (qrCode.bind PsQrCode.status) txn.status))
            brCode := jsOr (qrCode.bind PsQrCode.text) (jsOr txn.transactionRef "")
            qrCodeImage :=
              ((qrCode.bind (fun q => q.links.find? (fun link => link.rel == "QR_CODE_IMAGE"))).map
                PsLink.href).getD (txn.qrCodeUrl.getD "")
            expiresAt := (qrCode.bind PsQrCode.expiration_date).getD txn.updatedAt
            amount := txn.amount
            description := txn.description.getD ""
            orderId := txn.orderId.getD "" },
         [.gwGetOrderDetails gid])

/-- The `catch` branch of `buildExistingDirectCardResponse`. -/
def cardFallbackResponse (txn : Txn) (gid : String) : CardExistingResponse :=
  { transactionId := gid
    status := txn.status
    transactionRef := some (txn.transactionRef.getD "")
    amount := txn.amount
    description := txn.description.getD ""
    orderId := txn.orderId.getD "" }

/-- Private `buildExistingDirectCardResponse` of `PaymentsService`. -/
def buildExistingDirectCardResponse (env : Env) (txn : Txn) :
    Except Err CardExistingResponse × List Ev :=
  match txn.gatewayTransactionId with
  | none => (.error missingGatewayIdError, [])
  | some gid =>
    if gid = "" then (.error missingGatewayIdError, [])
    else
      match env.getCheckoutDetails gid with
      | .error _ => (.ok (cardFallbackResponse txn gid), [.gwGetCheckoutDetails gid])
      | .ok checkout =>
        let charge := checkout.charges.head?
        (.ok
          { transactionId := gid
            status := ((charge.bind PsCharge.status).orElse (fun _ => checkout.status)).getD txn.status
            transactionRef := (charge.bind PsCharge.id).orElse (fun _ => txn.transactionRef)
            amount := txn.amount
            description := txn.description.getD ""
            orderId := txn.orderId.getD "" },
         [.gwGetCheckoutDetails gid])

/-- The `catch` branch of `buildExistingRedirectResponse`. -/
def redirectFallbackResponse (txn : Txn) (gid : String) : RedirectResponse :=
  { redirectUrl := txn.transactionRef.getD ""
    pagSeguroCheckoutId := some gid }

/-- Private `buildExistingRedirectResponse` of `PaymentsService`. -/
def buildExistingRedirectResponse (env : Env) (txn : Txn) :
    Except Err RedirectResponse × List Ev :=
  match txn.gatewayTransactionId with
  | none => (.error missingGatewayIdError, [])
  | some gid =>
    if gid = "" then (.error missingGatewayIdError, [])
    else
      match env.getCheckoutDetails gid with
      | .error _ => (.ok (redirectFallbackResponse txn gid), [.gwGetCheckoutDetails gid])
      | .ok checkout =>
        let payLink := checkout.links.find? (fun link => link.rel == "PAY")
        (.ok
          { redirectUrl := (payLink.map PsLink.href).getD (txn.transactionRef.getD "")
            pagSeguroCheckoutId := some (checkout.id.getD gid) },
         [.gwGetCheckoutDetails gid])

/-- `prisma.transaction.create`: append the new row to the store. -/
def txnInsert (db : DB) (txn : Txn) : DB :=
  { db with transactions := db.transactions ++ [txn] }

/-- `prisma.order.update({ where: { id }, data: { status } })`. -/
def orderStatusUpdate (db : DB) (orderId : String) (s : OrderStatus) : DB :=
  { db with orders := db.orders.map (fun o => if o.id = orderId then { o with status := s } else o) }

/-- The `Transaction` row created by `createPixCharge`. -/
def createdPixTxn (env : Env) (order : OrderWithDetails) (resp : PixChargeResponse)
    (antifraudResult : AntifraudResult) : Txn :=
  { id := env.newTxnId
    userId := if strTruthy order.userId then order.userId else none
    orderId := some order.id
    amount := order.totalAmount
    type := .PAYMENT
    status := "PENDING"
    description := some ("Cobrança PIX para Pedido #" ++ order.id)
    gatewayTransactionId := some resp.transactionId
    transactionRef := some resp.brCode
    qrCodeUrl := some resp.qrCodeImage
    antifraudStatus := some antifraudResult.status
    updatedAt := env.now }

/-- The `try` block of `createPixCharge` (antifraud gate, BACKEND_URL check,
gateway call, transaction persistence). -/
def createPixChargeTry (env : Env) (db : DB) (order : OrderWithDetails) :
    Except Err PixChargeResponse × DB × List Ev :=
  let parts := buildPagSeguroPayload order
  match env.analyzeTransaction (antifraudRequestFor order parts "PIX" none) with
  | .error e => (.error e, db, [.antifraudCheck order.id])
  | .ok antifraudResult =>
    if antifraudResult.status = "DENIED" then
      (.error (.badRequest "Transação negada pela análise antifraude."), db,
       [.antifraudCheck order.id])
    else if env.backendUrl = "" then
      (.error (.internal "A variável de ambiente BACKEND_URL não está definida."), db,
       [.antifraudCheck order.id])
    else
      match env.createPagSeguroPixCharge (chargePayload order parts) env.backendUrl with
      | .error e => (.error e, db, [.antifraudCheck order.id, .gwCreatePix order.id])
      | .ok pagSeguroResponse =>
        (.ok pagSeguroResponse,
         txnInsert db (createdPixTxn env order pagSeguroResponse antifraudResult),
         [.antifraudCheck order.id, .gwCreatePix order.id, .txnCreate order.id])

/-- `PaymentsService.createPixCharge(orderId, userId)`. -/
def createPixCharge (env : Env) (db : DB) (orderId : String) (userId : String) :
    Except Err PixChargeResponse × DB × List Ev :=
  match findOneById db orderId with
  | none =>
    (.error (.notFound ("Pedido com ID " ++ orderId ++ " não encontrado.")), db,
     [.findOrder orderId])
  | some order =>
    if order.status ≠ OrderStatus.PENDING then
      (.error (.badRequest "O pedido já foi pago ou está em outro status."), db,
       [.findOrder orderId])
    else
      match ensureOrderOwnership order (some userId) with
      | .error e => (.error e, db, [.findOrder orderId])
      | .ok _ =>
        match getExistingPaymentTransaction db order.id with
        | some existingTransaction =>
          let built := buildPixResponseFromTransaction env existingTransaction
          (built.1, db, [.findOrder orderId, .findTxnByOrder order.id] ++ built.2)
        | none =>
          let attempt := createPixChargeTry env db order
          (match attempt.1 with
           | .ok v => .ok v
           | .error e =>
             .error (wrapInitError "Falha ao iniciar o processo de pagamento PIX com PagSeguro." e),
           attempt.2.1,
           [.findOrder orderId, .findTxnByOrder order.id] ++ attempt.2.2)

/-- `ProcessPaymentDto` (the card fields used by `processCreditCardPayment`). -/
structure ProcessPaymentDto where
  cardToken : Option String
  cardHolderName : Option String
  cardCpf : Option String
  cardInstallments : Option Nat
  cardBrand : Option String
deriving DecidableEq

/-- The `Transaction` row created by `processCreditCardPayment`. -/
def createdCardTxn (env : Env) (order : OrderWithDetails) (resp : CardChargeGatewayResponse)
    (antifraudResult : AntifraudResult) : Txn :=
  { id := env.newTxnId
    userId := if strTruthy order.userId then order.userId else none
    orderId := some order.id
    amount := order.totalAmount
    type := .PAYMENT
    status := resp.status
    description := some ("Pagamento com Cartão de Crédito para Pedido #" ++ order.id)
    gatewayTransactionId := some resp.transactionId
    transactionRef := some resp.transactionRef
    qrCodeUrl := none
    antifraudStatus := some antifraudResult.status
    updatedAt := env.now }

/-- The inner `try` around the card-flow confirmation email: the notification
attempt's outcome (first component) is discarded by the caller, mirroring the
`catch (emailError)` that only logs. -/
def cardConfirmationEmailBlock (env : Env) (order : OrderWithDetails) :
    Except Err Unit × List Ev :=
  let recipientEmail := (order.user.map UserRec.email).orElse (fun _ => order.guestEmail)
  match recipientEmail with
  | none => (.ok (), [])
  | some em =>
    if em = "" then (.ok (), [])
    else (env.sendPaymentConfirmationEmail em order.id order.totalAmount, [.emailConfirm em])

/-- The `try` block of `processCreditCardPayment`. -/
def processCreditCardPaymentTry (env : Env) (db : DB) (order : OrderWithDetails)
    (dto : ProcessPaymentDto) : Except Err CardChargeGatewayResponse × DB × List Ev :=
  let parts := buildPagSeguroPayload order
  match env.analyzeTransaction
      (antifraudRequestFor order parts "CREDIT_CARD"
        (some { brand := dto.cardBrand, installments := dto.cardInstallments })) with
  | .error e => (.error e, db, [.antifraudCheck order.id])
  | .ok antifraudResult =>
    if antifraudResult.status = "DENIED" then
      (.error (.badRequest "Transação negada pela análise antifraude."), db,
       [.antifraudCheck order.id])
    else if env.backendUrl = "" then
      (.error (.internal "A variável de ambiente BACKEND_URL não está definida."), db,
       [.antifraudCheck order.id])
    else
      match env.processDirectCreditCardPayment
          { base := chargePayload order parts
            cardDetails :=
              { token := dto.cardToken.getD ""
                holderName := dto.cardHolderName.getD ""
                cpf := dto.cardCpf.getD ""
                installments := dto.cardInstallments } } env.backendUrl with
      | .error e => (.error e, db, [.antifraudCheck order.id, .gwCreateCard order.id])
      | .ok pagSeguroResponse =>
        let db2 := txnInsert db (createdCardTxn env order pagSeguroResponse antifraudResult)
        if pagSeguroResponse.status = OrderStatus.PAID.toStr then
          let db3 := orderStatusUpdate db2 order.id OrderStatus.PAID
          let emailAttempt := cardConfirmationEmailBlock env order
          (.ok pagSeguroResponse, db3,
           [.antifraudCheck order.id, .gwCreateCard order.id, .txnCreate order.id,
            .orderUpdate order.id] ++ emailAttempt.2)
        else
          (.ok pagSeguroResponse, db2,
           [.antifraudCheck order.id, .gwCreateCard order.id, .txnCreate order.id])

/-- `PaymentsService.processCreditCardPayment(orderId, userId, processPaymentDto)`. -/
def processCreditCardPayment (env : Env) (db : DB) (orderId : String)
    (userId : Option String) (dto : ProcessPaymentDto) :
    Except Err CardPaymentResult × DB × List Ev :=
  if !(strTruthy dto.cardToken && strTruthy dto.cardHolderName && strTruthy dto.cardCpf) then
    (.error (.badRequest "Dados do cartão incompletos para processamento direto."), db, [])
  else
    match findOneById db orderId with
    | none =>
      (.error (.notFound ("Pedido com ID " ++ orderId ++ " não encontrado.")), db,
       [.findOrder orderId])
    | some order =>
      if order.status ≠ OrderStatus.PENDING then
        (.error (.badRequest "O pedido já foi pago ou está em outro status."), db,
         [.findOrder orderId])
      else
        match ensureOrderOwnership order userId with
        | .error e => (.error e, db, [.findOrder orderId])
        | .ok _ =>
          match getExistingPaymentTransaction db order.id with
          | some existingTransaction =>
            let built := buildExistingDirectCardResponse env existingTransaction
            ((built.1.map CardPaymentResult.existing), db,
             [.findOrder orderId, .findTxnByOrder order.id] ++ built.2)
          | none =>
            let attempt := processCreditCardPaymentTry env db order dto
            (match attempt.1 with
             | .ok v => .ok (.fresh v)
             | .error e =>
               .error (wrapInitError "Falha ao processar pagamento com cartão de crédito." e),
             attempt.2.1,
             [.findOrder orderId, .findTxnByOrder order.id] ++ attempt.2.2)

/-- The `Transaction` row created by `initiatePagSeguroRedirectCheckout`. -/
def createdRedirectTxn (env : Env) (order : OrderWithDetails) (resp : RedirectGatewayResponse)
    (antifraudResult : AntifraudResult) : Txn :=
  { id := env.newTxnId
    userId := if strTruthy order.userId then order.userId else none
    orderId := some order.id
    amount := order.totalAmount
    type := .PAYMENT
    status := "PENDING_REDIRECT"
    description := some ("Iniciação de pagamento via PagSeguro Checkout para Pedido #" ++ order.id)
    gatewayTransactionId := some resp.pagSeguroCheckoutId
    transactionRef := some resp.redirectUrl
    qrCodeUrl := none
    antifraudStatus := some antifraudResult.status
    updatedAt := env.now }

/-- The `try` block of `initiatePagSeguroRedirectCheckout`. -/
def initiateRedirectTry (env : Env) (db : DB) (order : OrderWithDetails) :
    Except Err RedirectResponse × DB × List Ev :=
  let parts := buildPagSeguroPayload order
  match env.analyzeTransaction (antifraudRequestFor order parts "REDIRECT_CHECKOUT" none) with
  | .error e => (.error e, db, [.antifraudCheck order.id])
  | .ok antifraudResult =>
    if antifraudResult.status = "DENIED" then
      (.error (.badRequest "Transação negada pela análise antifraude."), db,
       [.antifraudCheck order.id])
    else if env.backendUrl = "" then
      (.error (.internal "A variável de ambiente BACKEND_URL não está definida."), db,
       [.antifraudCheck order.id])
    else
      match env.createPagSeguroCheckoutRedirect (chargePayload order parts) env.backendUrl with
      | .error e => (.error e, db, [.antifraudCheck order.id, .gwCreateRedirect order.id])
      | .ok pagSeguroResponse =>
        (.ok { redirectUrl := pagSeguroResponse.redirectUrl, pagSeguroCheckoutId := none },
         txnInsert db (createdRedirectTxn env order pagSeguroResponse antifraudResult),
         [.antifraudCheck order.id, .gwCreateRedirect order.id, .txnCreate order.id])

/-- `PaymentsService.initiatePagSeguroRedirectCheckout(userId, orderId)`. -/
def initiatePagSeguroRedirectCheckout (env : Env) (db : DB) (userId : Option String)
    (orderId : String) : Except Err RedirectResponse × DB × List Ev :=
  match findOneById db orderId with
  | none =>
    (.error (.notFound ("Pedido com ID " ++ orderId ++ " não encontrado.")), db,
     [.findOrder orderId])
  | some order =>
    if order.status ≠ OrderStatus.PENDING then
      (.error (.badRequest "O pedido já foi pago ou está em outro status."), db,
       [.findOrder orderId])
    else
      match ensureOrderOwnership order userId with
      | .error e => (.error e, db, [.findOrder orderId])
      | .ok _ =>
        match getExistingPaymentTransaction db order.id with
        | some existingTransaction =>
          let built := buildExistingRedirectResponse env existingTransaction
          (built.1, db, [.findOrder orderId, .findTxnByOrder order.id] ++ built.2)
        | none =>
          let attempt := initiateRedirectTry env db order
          (match attempt.1 with
           | .ok v => .ok v
           | .error e =>
             .error (wrapInitError "Falha ao iniciar o processo de pagamento com PagSeguro." e),
           attempt.2.1,
           [.findOrder orderId, .findTxnByOrder order.id] ++ attempt.2.2)

/-- `checkoutDetails.status || checkoutDetails.charges?.[0]?.status || 'PENDING'` —
the gateway status string the webhook handler extracts. -/
def webhookGatewayStatus (checkoutDetails : CheckoutDetails) : String :=
  jsOr (jsOrO checkoutDetails.status ((checkoutDetails.charges.head?).bind PsCharge.status))
    "PENDING"

/-- The atomic `prisma.$transaction` batch of the webhook handler: update the
transaction's status string and the order's status together, both-or-neither. -/
def applyStatusUpdate (db : DB) (txnId orderId : String) (s : OrderStatus) : DB :=
  { orders := db.orders.map (fun o => if o.id = orderId then { o with status := s } else o)
    transactions :=
      db.transactions.map (fun t => if t.id = txnId then { t with status := s.toStr } else t) }

/-- The `try` around the webhook handler's notification dispatch. The first
component is the outcome of resolving the recipient and sending (an error for
a failed re-fetch — the `.user` access on a missing order — or a failed send);
the caller drops it, mirroring the `catch (emailError)` that only logs.
`order` is the `transaction.order` snapshot loaded before the update; the
recipient re-fetch reads the post-update store `db2`. -/
def webhookEmailBlock (env : Env) (db2 : DB) (order : OrderWithDetails)
    (newOrderStatus : OrderStatus) : Except Err Unit × List Ev :=
  let recipient : Except Err (Option String) × List Ev :=
    if strTruthy order.userId then
      match findOneById db2 order.id with
      | none => (.error (.internal "TypeError: pedido não encontrado na releitura."), [.findOrder order.id])
      | some refreshed => (.ok (refreshed.user.map UserRec.email), [.findOrder order.id])
    else
      (.ok order.guestEmail, [])
  match recipient.1 with
  | .error e => (.error e, recipient.2)
  | .ok recipientEmail =>
    match recipientEmail with
    | none => (.ok (), recipient.2)
    | some em =>
      if em = "" then (.ok (), recipient.2)
      else if newOrderStatus = OrderStatus.PAID then
        (env.sendPaymentConfirmationEmail em order.id order.totalAmount,
         recipient.2 ++ [.emailConfirm em])
      else if newOrderStatus = OrderStatus.CANCELLED then
        (env.sendPaymentCancellationEmail em order.id, recipient.2 ++ [.emailCancel em])
      else
        (.ok (), recipient.2)

/-- The webhook handler's body after the signature has been verified: fetch
checkout details, map the status, locate transaction and order, no-op or
atomically update, then best-effort notify. -/
def processVerifiedNotification (env : Env) (db : DB) (pagSeguroCheckoutId : String) :
    Except Err String × DB × List Ev :=
  match env.getCheckoutDetails pagSeguroCheckoutId with
  | .error e => (.error e, db, [.gwGetCheckoutDetails pagSeguroCheckoutId])
  | .ok checkoutDetails =>
    let newOrderStatus := mapPagSeguroStatusToOrderStatus (webhookGatewayStatus checkoutDetails)
    match findTxnByGatewayId db pagSeguroCheckoutId with
    | none =>
      (.error (.notFound "Transação não encontrada para o checkout ID fornecido."), db,
       [.gwGetCheckoutDetails pagSeguroCheckoutId, .findTxnByGateway pagSeguroCheckoutId])
    | some transaction =>
      match transaction.orderId.bind (findOneById db) with
      | none =>
        (.error (.notFound "Transação não encontrada para o checkout ID fornecido."), db,
         [.gwGetCheckoutDetails pagSeguroCheckoutId, .findTxnByGateway pagSeguroCheckoutId])
      | some order =>
        if transaction.status = newOrderStatus.toStr ∧ order.status = newOrderStatus then
          (.ok "Status já atualizado", db,
           [.gwGetCheckoutDetails pagSeguroCheckoutId, .findTxnByGateway pagSeguroCheckoutId])
        else if env.dbTxnOk then
          let db2 := applyStatusUpdate db transaction.id order.id newOrderStatus
          let emailAttempt := webhookEmailBlock env db2 order newOrderStatus
          (.ok "Status do pedido atualizado com sucesso", db2,
           [.gwGetCheckoutDetails pagSeguroCheckoutId, .findTxnByGateway pagSeguroCheckoutId,
            .dbAtomicStatusUpdate transaction.id order.id] ++ emailAttempt.2)
        else
          (.error (.internal "Falha ao aplicar a atualização atômica de status."), db,
           [.gwGetCheckoutDetails pagSeguroCheckoutId, .findTxnByGateway pagSeguroCheckoutId])

/-- `PaymentsService.handlePagSeguroNotification(pagSeguroCheckoutId, signature,
rawBody)`. The webhook secret comes from `configService.pagSeguroWebhookSecret`,
which throws when `PAGSEGURO_WEBHOOK_SECRET` is unset (fail closed); the
expected signature is the hex HMAC-SHA256 of the raw body under the secret. -/
def handlePagSeguroNotification (env : Env) (db : DB)
    (pagSeguroCheckoutId signature rawBody : String) :
    Except Err String × DB × List Ev :=
  match env.pagSeguroWebhookSecret with
  | none =>
    (.error (.internal
      "A variável de ambiente PAGSEGURO_WEBHOOK_SECRET é obrigatória para garantir a validade das notificações."),
     db, [])
  | some webhookSecret =>
    let expectedSignature := env.hmacSha256Hex webhookSecret rawBody
    if signature ≠ expectedSignature then
      (.error (.unauthorized "Assinatura do webhook inválida."), db, [])
    else
      processVerifiedNotification env db pagSeguroCheckoutId

/-- `find?` over an appended singleton when the front part has no match. -/
theorem find?_append_single {α : Type} (p : α → Bool) (l : List α) (a : α)
    (h : l.find? p = none) :
    (l ++ [a]).find? p = if p a then some a else none := by
  induction l with
  | nil => cases hpa : p a <;> simp [List.find?, hpa]
  | cons x xs ih =>
    cases hx : p x with
    | true => rw [List.find?_cons_of_pos _ hx] at h; exact absurd h (by simp)
    | false =>
      rw [List.find?_cons_of_neg _ (by simp [hx])] at h
      rw [List.cons_append, List.find?_cons_of_neg _ (by simp [hx])]
      exact ih h

/-- `find?` commutes with a map that does not disturb the predicate. -/
theorem find?_map_invariant {α : Type} (p : α → Bool) (f : α → α) (l : List α) (a : α)
    (hp : ∀ x, p (f x) = p x) (h : l.find? p = some a) :
    (l.map f).find? p = some (f a) := by
  induction l with
  | nil => simp [List.find?] at h
  | cons x xs ih =>
    cases hx : p x with
    | true =>
      rw [List.find?_cons_of_pos _ hx] at h
      cases h
      rw [List.map_cons, List.find?_cons_of_pos _ (by rw [hp]; exact hx)]
    | false =>
      rw [List.find?_cons_of_neg _ (by simp [hx])] at h
      rw [List.map_cons, List.find?_cons_of_neg _ (by simp [hp, hx])]
      exact ih h

/-- After the webhook's atomic batch, looking the transaction up again by its
gateway id yields the same row with the new status string. -/
theorem findTxn_after_update (db : DB) (cid oid : String) (s : OrderStatus) (txn : Txn)
    (h : findTxnByGatewayId db cid = some txn) :
    findTxnByGatewayId (applyStatusUpdate db txn.id oid s) cid =
      some { txn with status := s.toStr } := by
  unfold findTxnByGatewayId at h
  unfold findTxnByGatewayId applyStatusUpdate
  have := find?_map_invariant (fun t => t.gatewayTransactionId == some cid)
    (fun t => if t.id = txn.id then { t with status := s.toStr } else t)
    db.transactions txn (fun x => by by_cases hx : x.id = txn.id <;> simp [hx]) h
  simpa using this

/-- After the webhook's atomic batch, looking the order up again by id yields
the same row with the new status. -/
theorem findOrder_after_update (db : DB) (tid oid : String) (s : OrderStatus)
    (order : OrderWithDetails) (h : findOneById db oid = some order) :
    findOneById (applyStatusUpdate db tid order.id s) oid =
      some { order with status := s } := by
  unfold findOneById at h
  unfold findOneById applyStatusUpdate
  have := find?_map_invariant (fun o => o.id == oid)
    (fun o => if o.id = order.id then { o with status := s } else o)
    db.orders order (fun x => by by_cases hx : x.id = order.id <;> simp [hx]) h
  simpa using this

/-- A registered user fixture. -/
def user1 : UserRec :=
  { name := "Ana", email := "ana@example.com", phone := some "11999990000", cpf := some "39053344705" }

/-- A pending order owned by registered user `u1`. -/
def order1 : OrderWithDetails :=
  { id := "o1"
    status := .PENDING
    userId := some "u1"
    guestId := none
    user := some user1
    guestEmail := none
    guestPhone := none
    guestCpf := none
    totalAmount := 100
    shippingService := some "SEDEX"
    shippingPrice := 10
    shippingAddressZipCode := "01000-000"
    shippingAddressStreet := "Rua A"
    shippingAddressNumber := "10"
    shippingAddressComplement := none
    shippingAddressNeighborhood := "Centro"
    shippingAddressCity := "São Paulo"
    shippingAddressState := "SP"
    items := [{ productId := "p1", productName := "Vestido", productPrice := 100, quantity := 1, price := 100 }] }

/-- An already-persisted transaction for `order1` with gateway id `CHK1`. -/
def txn1 : Txn :=
  { id := "t1"
    userId := some "u1"
    orderId := some "o1"
    amount := 100
    type := .PAYMENT
    status := "PENDING"
    description := some "Cobrança PIX para Pedido #o1"
    gatewayTransactionId := some "CHK1"
    transactionRef := some "br-old"
    qrCodeUrl := some "qr-old"
    antifraudStatus := some "APPROVED"
    updatedAt := "2025-12-31T00:00:00Z" }

/-- Store with `order1` and no transaction yet. -/
def db0 : DB := { orders := [order1], transactions := [] }

/-- Store with `order1` and its existing transaction `txn1`. -/
def db1 : DB := { orders := [order1], transactions := [txn1] }

/-- A concrete collaborator environment: antifraud approves, all gateway
create operations succeed, `getCheckoutDetails` succeeds (reporting checkout
id `CHK2`), `getOrderDetails` fails, the store's atomic batch commits. -/
def env0 : Env :=
  { hmacSha256Hex := fun s b => s ++ "|" ++ b
    pagSeguroWebhookSecret := some "sec"
    backendUrl := "http://backend"
    now := "2026-01-01T00:00:00Z"
    newTxnId := "t2"
    analyzeTransaction := fun _ => .ok { status := "APPROVED" }
    createPagSeguroPixCharge := fun p _ => .ok
      { transactionId := "PIX1", status := "PENDING", brCode := "br-new", qrCodeImage := "qr-new",
        expiresAt := "2026-01-02T00:00:00Z", amount := p.amount, description := p.description,
        orderId := p.orderId }
    processDirectCreditCardPayment := fun _ _ => .ok
      { transactionId := "CARD1", status := "PAID", transactionRef := "charge-1" }
    createPagSeguroCheckoutRedirect := fun _ _ => .ok
      { pagSeguroCheckoutId := "CHK1", redirectUrl := "http://pay" }
    getCheckoutDetails := fun _ => .ok
      { id := some "CHK2", status := some "PAID", charges := [],
        links := [{ rel := "PAY", href := "http://pay2" }] }
    getOrderDetails := fun _ => .error (.internal "Falha no PagSeguro: serviço indisponível")
    sendPaymentConfirmationEmail := fun _ _ _ => .ok ()
    sendPaymentCancellationEmail := fun _ _ => .ok ()
    dbTxnOk := true }

/-- `env0` with an antifraud scorer that denies every transaction. -/
def envDenied : Env := { env0 with analyzeTransaction := fun _ => .ok { status := "DENIED" } }

/-- A card DTO with all mandatory fields present. -/
def dtoValid : ProcessPaymentDto :=
  { cardToken := some "tok-1", cardHolderName := some "Ana", cardCpf := some "39053344705",
    cardInstallments := some 1, cardBrand := some "visa" }

/-- A card DTO with the token absent. -/
def dtoNoToken : ProcessPaymentDto :=
  { cardToken := none, cardHolderName := some "Ana", cardCpf := some "39053344705",
    cardInstallments := some 1, cardBrand := some "visa" }

/-- Claim C1: `handlePagSeguroNotification` accepts only a signature equal to
the hex HMAC-SHA256 of the raw body under the shared secret: whenever the
supplied signature differs from `hmacSha256Hex S rawBody` (as it does after
any bit flip of the signature, or of the body whenever the flip changes the
HMAC value), the call is rejected with `Unauthorized` (\"Assinatura do webhook
inválida.\"), the store is unchanged and the trace is empty — so the rejection
happens before any gateway lookup, transaction lookup or state mutation. -/
theorem claim1_webhook_signature_gate (env : Env) (db : DB)
    (pagSeguroCheckoutId signature rawBody S : String)
    (hs : env.pagSeguroWebhookSecret = some S)
    (hne : signature ≠ env.hmacSha256Hex S rawBody) :
    handlePagSeguroNotification env db pagSeguroCheckoutId signature rawBody =
      (.error (.unauthorized "Assinatura do webhook inválida."), db, []) := by
  unfold handlePagSeguroNotification
  rw [hs]
  simp [hne]

/-- Witness for C1 at a concrete environment, store and forged signature. -/
theorem claim1_webhook_signature_gate_witness :
    handlePagSeguroNotification env0 db1 "CHK1" "forged" "body" =
      (.error (.unauthorized "Assinatura do webhook inválida."), db1, []) :=
  claim1_webhook_signature_gate env0 db1 "CHK1" "forged" "body" "sec" rfl (by decide)

/-- Claim C2: `mapPagSeguroStatusToOrderStatus` realizes exactly the literal
table, with every unrecognized input mapped to `PENDING`. -/
theorem claim2_status_mapping_table :
    mapPagSeguroStatusToOrderStatus "PAID" = .PAID ∧
    mapPagSeguroStatusToOrderStatus "APPROVED" = .PAID ∧
    mapPagSeguroStatusToOrderStatus "IN_ANALYSIS" = .PENDING ∧
    mapPagSeguroStatusToOrderStatus "PENDING" = .PENDING ∧
    mapPagSeguroStatusToOrderStatus "CANCELED" = .CANCELLED ∧
    mapPagSeguroStatusToOrderStatus "ABORTED" = .CANCELLED ∧
    mapPagSeguroStatusToOrderStatus "REFUNDED" = .SHIPPED ∧
    mapPagSeguroStatusToOrderStatus "SHIPPED" = .SHIPPED ∧
    mapPagSeguroStatusToOrderStatus "DELIVERED" = .DELIVERED ∧
    ∀ s : String,
      s ∉ (["PAID", "APPROVED", "IN_ANALYSIS", "PENDING", "CANCELED", "ABORTED", "REFUNDED",
            "SHIPPED", "DELIVERED"] : List String) →
      mapPagSeguroStatusToOrderStatus s = .PENDING := by
  refine ⟨rfl, rfl, rfl, rfl, rfl, rfl, rfl, rfl, rfl, ?_⟩
  intro s hs
  simp only [List.mem_cons, List.not_mem_nil, or_false, not_or] at hs
  unfold mapPagSeguroStatusToOrderStatus
  split <;> simp_all

/-- Witness for C2's default branch at a concrete unrecognized status. -/
theorem claim2_status_mapping_table_witness :
    ("WAITING" ∉ (["PAID", "APPROVED", "IN_ANALYSIS", "PENDING", "CANCELED", "ABORTED",
        "REFUNDED", "SHIPPED", "DELIVERED"] : List String)) ∧
    mapPagSeguroStatusToOrderStatus "WAITING" = .PENDING :=
  ⟨by decide,
   claim2_status_mapping_table.2.2.2.2.2.2.2.2.2 "WAITING" (by decide)⟩

/-- Claim C9: for an existing transaction that does carry a (truthy) stored
gateway id, each of the three reconstruction helpers returns a response and
never raises; in particular, whenever the live gateway re-query by the stored
id fails, the helper returns exactly the locally stored snapshot. -/
theorem claim9_reconstruction_fallback (env : Env) (txn : Txn) (gid : String)
    (hg : txn.gatewayTransactionId = some gid) (hne : gid ≠ "") :
    ((∃ r, (buildPixResponseFromTransaction env txn).1 = .ok r) ∧
     ∀ e, env.getOrderDetails gid = .error e →
       (buildPixResponseFromTransaction env txn).1 = .ok (pixFallbackResponse txn gid)) ∧
    ((∃ r, (buildExistingDirectCardResponse env txn).1 = .ok r) ∧
     ∀ e, env.getCheckoutDetails gid = .error e →
       (buildExistingDirectCardResponse env txn).1 = .ok (cardFallbackResponse txn gid)) ∧
    ((∃ r, (buildExistingRedirectResponse env txn).1 = .ok r) ∧
     ∀ e, env.getCheckoutDetails gid = .error e →
       (buildExistingRedirectResponse env txn).1 = .ok (redirectFallbackResponse txn gid)) := by
  refine ⟨⟨?_, ?_⟩, ⟨?_, ?_⟩, ⟨?_, ?_⟩⟩
  · unfold buildPixResponseFromTransaction
    rw [hg]
    cases henv : env.getOrderDetails gid <;> simp [hne, henv]
  · intro e he
    unfold buildPixResponseFromTransaction
    rw [hg]
    simp [hne, he]
  · unfold buildExistingDirectCardResponse
    rw [hg]
    cases henv : env.getCheckoutDetails gid <;> simp [hne, henv]
  · intro e he
    unfold buildExistingDirectCardResponse
    rw [hg]
    simp [hne, he]
  · unfold buildExistingRedirectResponse
    rw [hg]
    cases henv : env.getCheckoutDetails gid <;> simp [hne, henv]
  · intro e he
    unfold buildExistingRedirectResponse
    rw [hg]
    simp [hne, he]

/-- Witness for C9: under `env0` the live `getOrderDetails` re-query fails and
the PIX reconstruction degrades to the stored snapshot of `txn1`. -/
theorem claim9_reconstruction_fallback_witness :
    txn1.gatewayTransactionId = some "CHK1" ∧
    (buildPixResponseFromTransaction env0 txn1).1 = .ok (pixFallbackResponse txn1 "CHK1") :=
  ⟨rfl, (claim9_reconstruction_fallback env0 txn1 "CHK1" rfl (by decide)).1.2
    (.internal "Falha no PagSeguro: serviço indisponível") rfl⟩

/-- Claim C10: `processCreditCardPayment` with `cardToken`, `cardHolderName`
or `cardCpf` absent fails with the incomplete-card-data `BadRequest` before
anything else happens: the store is unchanged and the trace is empty, so no
order lookup, ownership check, antifraud call, gateway call or transaction
creation occurs. -/
theorem claim10_card_validation_gate (env : Env) (db : DB) (orderId : String)
    (userId : Option String) (dto : ProcessPaymentDto)
    (h : dto.cardToken = none ∨ dto.cardHolderName = none ∨ dto.cardCpf = none) :
    processCreditCardPayment env db orderId userId dto =
      (.error (.badRequest "Dados do cartão incompletos para processamento direto."), db, []) := by
  unfold processCreditCardPayment
  rcases h with h | h | h <;> simp [h, strTruthy]

/-- Witness for C10 at a DTO whose card token is absent. -/
theorem claim10_card_validation_gate_witness :
    dtoNoToken.cardToken = none ∧
    processCreditCardPayment env0 db0 "o1" (some "u1") dtoNoToken =
      (.error (.badRequest "Dados do cartão incompletos para processamento direto."), db0, []) :=
  ⟨rfl, claim10_card_validation_gate env0 db0 "o1" (some "u1") dtoNoToken (Or.inl rfl)⟩

/-- Claim C7: the ownership rule. `ensureOrderOwnership` succeeds exactly when
either the order has a (truthy) registered owner equal to the requester id, or
it has no registered owner but a (truthy) guest id equal to the requester id;
any mismatch, absent requester, or order with neither identifier is rejected —
and each of the three initiation operations propagates the rejection as its
result, performing nothing beyond the order load. -/
theorem claim7_ownership_rule :
    (∀ (order : OrderWithDetails) (requesterId : Option String),
      ensureOrderOwnership order requesterId = .ok () ↔
        ((strTruthy order.userId = true ∧ requesterId = order.userId) ∨
         (strTruthy order.userId = false ∧ strTruthy order.guestId = true ∧
          requesterId = order.guestId))) ∧
    (∀ (env : Env) (db : DB) (orderId userId : String) (order : OrderWithDetails) (e : Err),
      findOneById db orderId = some order → order.status = .PENDING →
      ensureOrderOwnership order (some userId) = .error e →
      createPixCharge env db orderId userId = (.error e, db, [.findOrder orderId])) ∧
    (∀ (env : Env) (db : DB) (orderId : String) (userId : Option String)
        (dto : ProcessPaymentDto) (order : OrderWithDetails) (e : Err),
      strTruthy dto.cardToken = true → strTruthy dto.cardHolderName = true →
      strTruthy dto.cardCpf = true →
      findOneById db orderId = some order → order.status = .PENDING →
      ensureOrderOwnership order userId = .error e →
      processCreditCardPayment env db orderId userId dto = (.error e, db, [.findOrder orderId])) ∧
    (∀ (env : Env) (db : DB) (orderId : String) (userId : Option String)
        (order : OrderWithDetails) (e : Err),
      findOneById db orderId = some order → order.status = .PENDING →
      ensureOrderOwnership order userId = .error e →
      initiatePagSeguroRedirectCheckout env db userId orderId =
        (.error e, db, [.findOrder orderId])) := by
  refine ⟨?_, ?_, ?_, ?_⟩
  · intro order r
    unfold ensureOrderOwnership
    split_ifs with h1 h2 h3 h4
    · simp only [reduceCtorEq, false_iff]
      rintro (⟨_, hre⟩ | ⟨hA, _⟩)
      · rw [hre] at h2
        simp [h1] at h2
      · rw [hA] at h1
        exact absurd h1 (by simp)
    · simp only [true_iff]
      rw [Bool.not_eq_true] at h2
      simp only [Bool.or_eq_false_iff, Bool.not_eq_false, bne_eq_false_iff_eq] at h2
      exact Or.inl ⟨h1, h2.2.symm⟩
    · simp only [reduceCtorEq, false_iff]
      rw [Bool.not_eq_true] at h1
      rintro (⟨hA, _⟩ | ⟨_, hg, _⟩)
      · rw [hA] at h1
        exact absurd h1 (by simp)
      · rw [hg] at h3
        exact absurd h3 (by simp)
    · simp only [reduceCtorEq, false_iff]
      rw [Bool.not_eq_true] at h1
      rintro (⟨hA, _⟩ | ⟨_, hg, hre⟩)
      · rw [hA] at h1
        exact absurd h1 (by simp)
      · rw [hre] at h4
        simp [hg] at h4
    · refine iff_of_true rfl ?_
      rw [Bool.not_eq_true] at h1
      rw [Bool.not_eq_true] at h3
      have h3 : strTruthy order.guestId = true := by simpa using h3
      rw [Bool.not_eq_true] at h4
      simp only [Bool.or_eq_false_iff, Bool.not_eq_false, bne_eq_false_iff_eq] at h4
      exact Or.inr ⟨h1, h3, h4.2.symm⟩
  · intro env db orderId userId order e hfind hst herr
    unfold createPixCharge
    rw [hfind]
    simp [hst, herr]
  · intro env db orderId userId dto order e ht hh hc hfind hst herr
    unfold processCreditCardPayment
    rw [hfind]
    simp [ht, hh, hc, hst, herr]
  · intro env db orderId userId order e hfind hst herr
    unfold initiatePagSeguroRedirectCheckout
    rw [hfind]
    simp [hst, herr]

/-- Witness for C7: the matching owner passes, a mismatching requester is
rejected and the PIX initiation surfaces exactly that rejection. -/
theorem claim7_ownership_rule_witness :
    ensureOrderOwnership order1 (some "u1") = .ok () ∧
    createPixCharge env0 db0 "o1" "u2" =
      (.error (.badRequest "Acesso não autorizado a este pedido."), db0, [.findOrder "o1"]) :=
  ⟨(claim7_ownership_rule.1 order1 (some "u1")).mpr (Or.inl ⟨by decide, by decide⟩),
   claim7_ownership_rule.2.1 env0 db0 "o1" "u2" order1
     (.badRequest "Acesso não autorizado a este pedido.") rfl rfl rfl⟩

/-- Counterexample to C4 as stated: with an antifraud scorer that denies, the
PIX initiation does not surface the InvalidState/BadRequest error
"Transação negada pela análise antifraude." — the `catch` block swallows the
`BadRequestException` thrown inside the `try` and replaces it with the generic
`InternalServerErrorException` of the flow. -/
theorem claim4_counterexample :
    (createPixCharge envDenied db0 "o1" "u1").1 =
      .error (.internal "Falha ao iniciar o processo de pagamento PIX com PagSeguro.") ∧
    (createPixCharge envDenied db0 "o1" "u1").1 ≠
      .error (.badRequest "Transação negada pela análise antifraude.") := by
  have h0 : (createPixCharge envDenied db0 "o1" "u1").1 =
      .error (.internal "Falha ao iniciar o processo de pagamento PIX com PagSeguro.") := rfl
  refine ⟨h0, ?_⟩
  rw [h0]
  intro h
  exact Err.noConfusion (Except.error.inj h)

/-- Claim C4 (amended): in each initiation flow a DENIED antifraud verdict
aborts before any gateway-create call and before any Transaction row is
persisted — the store is unchanged and the trace stops at the antifraud
check — but the surfaced error is the flow's generic InternalError wrapper
(the fraud-denial BadRequest is swallowed by the catch-all); a non-DENIED
verdict (with the callback URL configured) lets the gateway-create call
proceed. -/
theorem claim4_amended_antifraud_gate :
    (∀ (env : Env) (db : DB) (orderId userId : String) (order : OrderWithDetails)
        (af : AntifraudResult),
      findOneById db orderId = some order → order.status = .PENDING →
      ensureOrderOwnership order (some userId) = .ok () →
      getExistingPaymentTransaction db order.id = none →
      env.analyzeTransaction
        (antifraudRequestFor order (buildPagSeguroPayload order) "PIX" none) = .ok af →
      (af.status = "DENIED" →
        createPixCharge env db orderId userId =
          (.error (.internal "Falha ao iniciar o processo de pagamento PIX com PagSeguro."), db,
           [.findOrder orderId, .findTxnByOrder order.id, .antifraudCheck order.id])) ∧
      (af.status ≠ "DENIED" → env.backendUrl ≠ "" →
        Ev.gwCreatePix order.id ∈ (createPixCharge env db orderId userId).2.2)) ∧
    (∀ (env : Env) (db : DB) (orderId : String) (userId : Option String)
        (dto : ProcessPaymentDto) (order : OrderWithDetails) (af : AntifraudResult),
      strTruthy dto.cardToken = true → strTruthy dto.cardHolderName = true →
      strTruthy dto.cardCpf = true →
      findOneById db orderId = some order → order.status = .PENDING →
      ensureOrderOwnership order userId = .ok () →
      getExistingPaymentTransaction db order.id = none →
      env.analyzeTransaction
        (antifraudRequestFor order (buildPagSeguroPayload order) "CREDIT_CARD"
          (some { brand := dto.cardBrand, installments := dto.cardInstallments })) = .ok af →
      (af.status = "DENIED" →
        processCreditCardPayment env db orderId userId dto =
          (.error (.internal "Falha ao processar pagamento com cartão de crédito."), db,
           [.findOrder orderId, .findTxnByOrder order.id, .antifraudCheck order.id])) ∧
      (af.status ≠ "DENIED" → env.backendUrl ≠ "" →
        Ev.gwCreateCard order.id ∈ (processCreditCardPayment env db orderId userId dto).2.2)) ∧
    (∀ (env : Env) (db : DB) (orderId : String) (userId : Option String)
        (order : OrderWithDetails) (af : AntifraudResult),
      findOneById db orderId = some order → order.status = .PENDING →
      ensureOrderOwnership order userId = .ok () →
      getExistingPaymentTransaction db order.id = none →
      env.analyzeTransaction
        (antifraudRequestFor order (buildPagSeguroPayload order) "REDIRECT_CHECKOUT" none) =
        .ok af →
      (af.status = "DENIED" →
        initiatePagSeguroRedirectCheckout env db userId orderId =
          (.error (.internal "Falha ao iniciar o processo de pagamento com PagSeguro."), db,
           [.findOrder orderId, .findTxnByOrder order.id, .antifraudCheck order.id])) ∧
      (af.status ≠ "DENIED" → env.backendUrl ≠ "" →
        Ev.gwCreateRedirect order.id ∈
          (initiatePagSeguroRedirectCheckout env db userId orderId).2.2)) := by
  refine ⟨?_, ?_, ?_⟩
  · intro env db orderId userId order af hfind hst hown hex haf
    constructor
    · intro hden
      unfold createPixCharge
      rw [hfind]
      simp only [hst]
      unfold createPixChargeTry
      simp [hown, hex, haf, hden, wrapInitError]
    · intro hnd hb
      unfold createPixCharge
      rw [hfind]
      simp only [hst]
      unfold createPixChargeTry
      cases hgw : env.createPagSeguroPixCharge
          (chargePayload order (buildPagSeguroPayload order)) env.backendUrl <;>
        simp [hown, hex, haf, hnd, hb, hgw]
  · intro env db orderId userId dto order af ht hh hc hfind hst hown hex haf
    constructor
    · intro hden
      unfold processCreditCardPayment
      rw [hfind]
      simp only [hst]
      unfold processCreditCardPaymentTry
      simp [ht, hh, hc, hown, hex, haf, hden, wrapInitError]
    · intro hnd hb
      unfold processCreditCardPayment
      rw [hfind]
      simp only [hst]
      unfold processCreditCardPaymentTry
      cases hgw : env.processDirectCreditCardPayment
          { base := chargePayload order (buildPagSeguroPayload order)
            cardDetails :=
              { token := dto.cardToken.getD ""
                holderName := dto.cardHolderName.getD ""
                cpf := dto.cardCpf.getD ""
                installments := dto.cardInstallments } } env.backendUrl with
      | error e => simp [ht, hh, hc, hown, hex, haf, hnd, hb, hgw]
      | ok resp =>
        by_cases hps : resp.status = OrderStatus.PAID.toStr <;>
          simp [ht, hh, hc, hown, hex, haf, hnd, hb, hgw, hps]
  · intro env db orderId userId order af hfind hst hown hex haf
    constructor
    · intro hden
      unfold initiatePagSeguroRedirectCheckout
      rw [hfind]
      simp only [hst]
      unfold initiateRedirectTry
      simp [hown, hex, haf, hden, wrapInitError]
    · intro hnd hb
      unfold initiatePagSeguroRedirectCheckout
      rw [hfind]
      simp only [hst]
      unfold initiateRedirectTry
      cases hgw : env.createPagSeguroCheckoutRedirect
          (chargePayload order (buildPagSeguroPayload order)) env.backendUrl <;>
        simp [hown, hex, haf, hnd, hb, hgw]

/-- Witness for the amended C4: the concrete denying environment aborts the
PIX flow before any create step with the generic wrapper error, and the
approving environment reaches the gateway-create call. -/
theorem claim4_amended_antifraud_gate_witness :
    createPixCharge envDenied db0 "o1" "u1" =
      (.error (.internal "Falha ao iniciar o processo de pagamento PIX com PagSeguro."), db0,
       [.findOrder "o1", .findTxnByOrder "o1", .antifraudCheck "o1"]) ∧
    Ev.gwCreatePix "o1" ∈ (createPixCharge env0 db0 "o1" "u1").2.2 :=
  ⟨(claim4_amended_antifraud_gate.1 envDenied db0 "o1" "u1" order1 { status := "DENIED" }
      rfl rfl rfl rfl rfl).1 rfl,
   (claim4_amended_antifraud_gate.1 env0 db0 "o1" "u1" order1 { status := "APPROVED" }
      rfl rfl rfl rfl rfl).2 (by decide) (by decide)⟩

/-- The PIX reconstruction emits at most its single gateway re-query event. -/
theorem buildPix_trace (env : Env) (t : Txn) :
    (buildPixResponseFromTransaction env t).2 = [] ∨
    ∃ gid, (buildPixResponseFromTransaction env t).2 = [Ev.gwGetOrderDetails gid] := by
  unfold buildPixResponseFromTransaction
  rcases t.gatewayTransactionId with _ | gid
  · simp
  · by_cases hg : gid = ""
    · simp [hg]
    · cases h : env.getOrderDetails gid <;> simp [hg, h]

/-- The direct-card reconstruction emits at most its single re-query event. -/
theorem buildCard_trace (env : Env) (t : Txn) :
    (buildExistingDirectCardResponse env t).2 = [] ∨
    ∃ gid, (buildExistingDirectCardResponse env t).2 = [Ev.gwGetCheckoutDetails gid] := by
  unfold buildExistingDirectCardResponse
  rcases t.gatewayTransactionId with _ | gid
  · simp
  · by_cases hg : gid = ""
    · simp [hg]
    · cases h : env.getCheckoutDetails gid <;> simp [hg, h]

/-- The redirect reconstruction emits at most its single re-query event. -/
theorem buildRedirect_trace (env : Env) (t : Txn) :
    (buildExistingRedirectResponse env t).2 = [] ∨
    ∃ gid, (buildExistingRedirectResponse env t).2 = [Ev.gwGetCheckoutDetails gid] := by
  unfold buildExistingRedirectResponse
  rcases t.gatewayTransactionId with _ | gid
  · simp
  · by_cases hg : gid = ""
    · simp [hg]
    · cases h : env.getCheckoutDetails gid <;> simp [hg, h]

/-- The PIX reconstruction always succeeds and always reports the stored
gateway id as `transactionId`. -/
theorem buildPix_ok_id (env : Env) (t : Txn) (gid : String)
    (hg : t.gatewayTransactionId = some gid) (hne : gid ≠ "") :
    ∃ r, (buildPixResponseFromTransaction env t).1 = .ok r ∧ r.transactionId = gid := by
  unfold buildPixResponseFromTransaction
  rw [hg]
  cases h : env.getOrderDetails gid <;> simp [hne, h, pixFallbackResponse]

/-- The direct-card reconstruction always succeeds and always reports the
stored gateway id as `transactionId`. -/
theorem buildCard_ok_id (env : Env) (t : Txn) (gid : String)
    (hg : t.gatewayTransactionId = some gid) (hne : gid ≠ "") :
    ∃ r, (buildExistingDirectCardResponse env t).1 = .ok r ∧ r.transactionId = gid := by
  unfold buildExistingDirectCardResponse
  rw [hg]
  cases h : env.getCheckoutDetails gid <;> simp [hne, h, cardFallbackResponse]

/-- The redirect reconstruction always succeeds; on re-query failure it
reports the stored snapshot. -/
theorem buildRedirect_ok (env : Env) (t : Txn) (gid : String)
    (hg : t.gatewayTransactionId = some gid) (hne : gid ≠ "") :
    (∃ r, (buildExistingRedirectResponse env t).1 = .ok r) ∧
    (∀ e, env.getCheckoutDetails gid = .error e →
      (buildExistingRedirectResponse env t).1 = .ok (redirectFallbackResponse t gid)) := by
  constructor
  · unfold buildExistingRedirectResponse
    rw [hg]
    cases h : env.getCheckoutDetails gid <;> simp [hne, h]
  · intro e he
    unfold buildExistingRedirectResponse
    rw [hg]
    simp [hne, he]

/-- Counterexample to C3 as stated: for the redirect operation the first
call's response carries no gateway transaction id at all (only the redirect
URL), and the second (short-circuit) call reports the checkout id of the live
gateway object (`CHK2`) rather than the stored `gatewayTransactionId`
(`CHK1`) — so "returns a response referencing the stored gatewayTransactionId
/ the same gateway transaction id both times" fails for this operation. -/
theorem claim3_counterexample :
    ((initiatePagSeguroRedirectCheckout env0 db0 (some "u1") "o1").1 =
      .ok { redirectUrl := "http://pay", pagSeguroCheckoutId := none }) ∧
    ((initiatePagSeguroRedirectCheckout env0
        (initiatePagSeguroRedirectCheckout env0 db0 (some "u1") "o1").2.1
        (some "u1") "o1").1 =
      .ok { redirectUrl := "http://pay2", pagSeguroCheckoutId := some "CHK2" }) :=
  ⟨rfl, rfl⟩

/-- The concrete PIX gateway response `env0` produces for `order1`. -/
def resp0 : PixChargeResponse :=
  { transactionId := "PIX1", status := "PENDING", brCode := "br-new", qrCodeImage := "qr-new",
    expiresAt := "2026-01-02T00:00:00Z", amount := 100,
    description := "Pagamento do Pedido #o1 na MKCloset", orderId := "o1" }

/-- The concrete card gateway response `env0` produces: already PAID. -/
def respCardPaid : CardChargeGatewayResponse :=
  { transactionId := "CARD1", status := "PAID", transactionRef := "charge-1" }

/-- A card gateway response still in analysis (not PAID). -/
def respCardPending : CardChargeGatewayResponse :=
  { transactionId := "CARD1", status := "IN_ANALYSIS", transactionRef := "charge-1" }

/-- `env0` with a card gateway that answers `IN_ANALYSIS` instead of PAID. -/
def envCardPending : Env :=
  { env0 with processDirectCreditCardPayment := fun _ _ => .ok respCardPending }

/-- The card flow's confirmation-email attempt emits at most one
`emailConfirm` event. -/
theorem cardEmail_trace (env : Env) (order : OrderWithDetails) :
    (cardConfirmationEmailBlock env order).2 = [] ∨
    ∃ em, (cardConfirmationEmailBlock env order).2 = [Ev.emailConfirm em] := by
  unfold cardConfirmationEmailBlock
  cases hrec : (order.user.map UserRec.email).orElse (fun _ => order.guestEmail) with
  | none => simp
  | some em =>
    by_cases he : em = ""
    · left
      simp [he]
    · right
      exact ⟨em, by simp [he]⟩

/-- After the card flow's `prisma.order.update` to a new status, looking the
order up again by id yields the same row with that status. -/
theorem findOrder_after_orderStatusUpdate (db : DB) (oid : String) (s : OrderStatus)
    (order : OrderWithDetails) (h : findOneById db oid = some order) :
    findOneById (orderStatusUpdate db order.id s) oid = some { order with status := s } := by
  unfold findOneById at h
  unfold findOneById orderStatusUpdate
  have := find?_map_invariant (fun o => o.id == oid)
    (fun o => if o.id = order.id then { o with status := s } else o)
    db.orders order (fun x => by by_cases hx : x.id = order.id <;> simp [hx]) h
  simpa using this

/-- Claim C3 (amended): when a Transaction already exists, every initiation
operation short-circuits — store unchanged, no gateway-create and no
transaction-create step — and the PIX and direct-card short-circuit responses
carry the stored `gatewayTransactionId`. Two consecutive PIX calls return the
same gateway transaction id both times with gateway-create invoked exactly
once. Two consecutive direct-card calls behave the same way when the first
gateway response's status is not PAID; when it is PAID, the first call flips
the Order to PAID, so the second call is rejected at the status check
("O pedido já foi pago ou está em outro status."), returning no transaction
id — gateway-create is still invoked exactly once across the two calls. The
redirect short-circuit returns the stored snapshot only when the re-query
fails — its live path reports the gateway object's own checkout id, and the
first redirect response exposes no checkout id at all (see the
counterexample). -/
theorem claim3_amended_idempotent_initiation :
    (∀ (env : Env) (db : DB) (orderId userId : String) (order : OrderWithDetails) (t : Txn),
      findOneById db orderId = some order → order.status = .PENDING →
      ensureOrderOwnership order (some userId) = .ok () →
      getExistingPaymentTransaction db order.id = some t →
      (createPixCharge env db orderId userId).2.1 = db ∧
      (∀ e ∈ (createPixCharge env db orderId userId).2.2, e.isCreateStep = false) ∧
      (∀ gid, t.gatewayTransactionId = some gid → gid ≠ "" →
        ∃ r, (createPixCharge env db orderId userId).1 = .ok r ∧ r.transactionId = gid) ∧
      (∀ gid e, t.gatewayTransactionId = some gid → gid ≠ "" →
        env.getOrderDetails gid = .error e →
        (createPixCharge env db orderId userId).1 = .ok (pixFallbackResponse t gid))) ∧
    (∀ (env : Env) (db : DB) (orderId : String) (userId : Option String)
        (dto : ProcessPaymentDto) (order : OrderWithDetails) (t : Txn),
      strTruthy dto.cardToken = true → strTruthy dto.cardHolderName = true →
      strTruthy dto.cardCpf = true →
      findOneById db orderId = some order → order.status = .PENDING →
      ensureOrderOwnership order userId = .ok () →
      getExistingPaymentTransaction db order.id = some t →
      (processCreditCardPayment env db orderId userId dto).2.1 = db ∧
      (∀ e ∈ (processCreditCardPayment env db orderId userId dto).2.2, e.isCreateStep = false) ∧
      (∀ gid, t.gatewayTransactionId = some gid → gid ≠ "" →
        ∃ r, (processCreditCardPayment env db orderId userId dto).1 = .ok r ∧
          r.transactionId = gid)) ∧
    (∀ (env : Env) (db : DB) (orderId : String) (userId : Option String)
        (order : OrderWithDetails) (t : Txn),
      findOneById db orderId = some order → order.status = .PENDING →
      ensureOrderOwnership order userId = .ok () →
      getExistingPaymentTransaction db order.id = some t →
      (initiatePagSeguroRedirectCheckout env db userId orderId).2.1 = db ∧
      (∀ e ∈ (initiatePagSeguroRedirectCheckout env db userId orderId).2.2,
        e.isCreateStep = false) ∧
      (∀ gid, t.gatewayTransactionId = some gid → gid ≠ "" →
        (∃ r, (initiatePagSeguroRedirectCheckout env db userId orderId).1 = .ok r) ∧
        (∀ e, env.getCheckoutDetails gid = .error e →
          (initiatePagSeguroRedirectCheckout env db userId orderId).1 =
            .ok (redirectFallbackResponse t gid)))) ∧
    (∀ (env : Env) (db : DB) (orderId userId : String) (order : OrderWithDetails)
        (af : AntifraudResult) (resp : PixChargeResponse),
      findOneById db orderId = some order → order.status = .PENDING →
      ensureOrderOwnership order (some userId) = .ok () →
      getExistingPaymentTransaction db order.id = none →
      env.analyzeTransaction
        (antifraudRequestFor order (buildPagSeguroPayload order) "PIX" none) = .ok af →
      af.status ≠ "DENIED" → env.backendUrl ≠ "" →
      env.createPagSeguroPixCharge (chargePayload order (buildPagSeguroPayload order))
        env.backendUrl = .ok resp →
      resp.transactionId ≠ "" →
      (createPixCharge env db orderId userId).1 = .ok resp ∧
      (∃ r2, (createPixCharge env (createPixCharge env db orderId userId).2.1 orderId userId).1 =
          .ok r2 ∧ r2.transactionId = resp.transactionId) ∧
      ((createPixCharge env db orderId userId).2.2 ++
        (createPixCharge env (createPixCharge env db orderId userId).2.1 orderId userId).2.2).countP
          Ev.isGatewayCreate = 1) ∧
    (∀ (env : Env) (db : DB) (orderId : String) (userId : Option String)
        (dto : ProcessPaymentDto) (order : OrderWithDetails)
        (af : AntifraudResult) (resp : CardChargeGatewayResponse),
      strTruthy dto.cardToken = true → strTruthy dto.cardHolderName = true →
      strTruthy dto.cardCpf = true →
      findOneById db orderId = some order → order.status = .PENDING →
      ensureOrderOwnership order userId = .ok () →
      getExistingPaymentTransaction db order.id = none →
      env.analyzeTransaction
        (antifraudRequestFor order (buildPagSeguroPayload order) "CREDIT_CARD"
          (some { brand := dto.cardBrand, installments := dto.cardInstallments })) = .ok af →
      af.status ≠ "DENIED" → env.backendUrl ≠ "" →
      env.processDirectCreditCardPayment
        { base := chargePayload order (buildPagSeguroPayload order)
          cardDetails :=
            { token := dto.cardToken.getD ""
              holderName := dto.cardHolderName.getD ""
              cpf := dto.cardCpf.getD ""
              installments := dto.cardInstallments } } env.backendUrl = .ok resp →
      resp.transactionId ≠ "" →
      resp.status ≠ OrderStatus.PAID.toStr →
      (processCreditCardPayment env db orderId userId dto).1 = .ok (.fresh resp) ∧
      (∃ r2, (processCreditCardPayment env
          (processCreditCardPayment env db orderId userId dto).2.1 orderId userId dto).1 =
          .ok r2 ∧ r2.transactionId = resp.transactionId) ∧
      ((processCreditCardPayment env db orderId userId dto).2.2 ++
        (processCreditCardPayment env (processCreditCardPayment env db orderId userId dto).2.1
          orderId userId dto).2.2).countP Ev.isGatewayCreate = 1) ∧
    (∀ (env : Env) (db : DB) (orderId : String) (userId : Option String)
        (dto : ProcessPaymentDto) (order : OrderWithDetails)
        (af : AntifraudResult) (resp : CardChargeGatewayResponse),
      strTruthy dto.cardToken = true → strTruthy dto.cardHolderName = true →
      strTruthy dto.cardCpf = true →
      findOneById db orderId = some order → order.status = .PENDING →
      ensureOrderOwnership order userId = .ok () →
      getExistingPaymentTransaction db order.id = none →
      env.analyzeTransaction
        (antifraudRequestFor order (buildPagSeguroPayload order) "CREDIT_CARD"
          (some { brand := dto.cardBrand, installments := dto.cardInstallments })) = .ok af →
      af.status ≠ "DENIED" → env.backendUrl ≠ "" →
      env.processDirectCreditCardPayment
        { base := chargePayload order (buildPagSeguroPayload order)
          cardDetails :=
            { token := dto.cardToken.getD ""
              holderName := dto.cardHolderName.getD ""
              cpf := dto.cardCpf.getD ""
              installments := dto.cardInstallments } } env.backendUrl = .ok resp →
      resp.status = OrderStatus.PAID.toStr →
      (processCreditCardPayment env db orderId userId dto).1 = .ok (.fresh resp) ∧
      (processCreditCardPayment env (processCreditCardPayment env db orderId userId dto).2.1
          orderId userId dto) =
        (.error (.badRequest "O pedido já foi pago ou está em outro status."),
         (processCreditCardPayment env db orderId userId dto).2.1, [.findOrder orderId]) ∧
      ((processCreditCardPayment env db orderId userId dto).2.2 ++
        (processCreditCardPayment env (processCreditCardPayment env db orderId userId dto).2.1
          orderId userId dto).2.2).countP Ev.isGatewayCreate = 1) := by
  refine ⟨?_, ?_, ?_, ?_, ?_, ?_⟩
  · intro env db orderId userId order t hfind hst hown hex
    have hc : createPixCharge env db orderId userId =
        ((buildPixResponseFromTransaction env t).1, db,
         [.findOrder orderId, .findTxnByOrder order.id] ++
           (buildPixResponseFromTransaction env t).2) := by
      unfold createPixCharge
      rw [hfind]
      simp [hst, hown, hex]
    refine ⟨by rw [hc], ?_, ?_, ?_⟩
    · intro e he
      rw [hc] at he
      rcases buildPix_trace env t with h | ⟨gid, h⟩ <;> rw [h] at he <;> simp at he
      · rcases he with rfl | rfl <;> rfl
      · rcases he with rfl | rfl | rfl <;> rfl
    · intro gid hg hne
      rw [hc]
      exact buildPix_ok_id env t gid hg hne
    · intro gid e hg hne he
      rw [hc]
      unfold buildPixResponseFromTransaction
      rw [hg]
      simp [hne, he]
  · intro env db orderId userId dto order t ht hh hcp hfind hst hown hex
    have hc : processCreditCardPayment env db orderId userId dto =
        ((buildExistingDirectCardResponse env t).1.map CardPaymentResult.existing, db,
         [.findOrder orderId, .findTxnByOrder order.id] ++
           (buildExistingDirectCardResponse env t).2) := by
      unfold processCreditCardPayment
      rw [hfind]
      simp [ht, hh, hcp, hst, hown, hex]
    refine ⟨by rw [hc], ?_, ?_⟩
    · intro e he
      rw [hc] at he
      rcases buildCard_trace env t with h | ⟨gid, h⟩ <;> rw [h] at he <;> simp at he
      · rcases he with rfl | rfl <;> rfl
      · rcases he with rfl | rfl | rfl <;> rfl
    · intro gid hg hne
      obtain ⟨rc, hrc, hidc⟩ := buildCard_ok_id env t gid hg hne
      refine ⟨.existing rc, ?_, ?_⟩
      · rw [hc]
        show ((buildExistingDirectCardResponse env t).1.map CardPaymentResult.existing) =
          .ok (.existing rc)
        rw [hrc]
        rfl
      · simp [CardPaymentResult.transactionId, hidc]
  · intro env db orderId userId order t hfind hst hown hex
    have hc : initiatePagSeguroRedirectCheckout env db userId orderId =
        ((buildExistingRedirectResponse env t).1, db,
         [.findOrder orderId, .findTxnByOrder order.id] ++
           (buildExistingRedirectResponse env t).2) := by
      unfold initiatePagSeguroRedirectCheckout
      rw [hfind]
      simp [hst, hown, hex]
    refine ⟨by rw [hc], ?_, ?_⟩
    · intro e he
      rw [hc] at he
      rcases buildRedirect_trace env t with h | ⟨gid, h⟩ <;> rw [h] at he <;> simp at he
      · rcases he with rfl | rfl <;> rfl
      · rcases he with rfl | rfl | rfl <;> rfl
    · intro gid hg hne
      obtain ⟨hok, hfb⟩ := buildRedirect_ok env t gid hg hne
      refine ⟨by rw [hc]; exact hok, ?_⟩
      intro e he
      rw [hc]
      exact hfb e he
  · intro env db orderId userId order af resp hfind hst hown hex haf hnd hb hgw hrid
    have hc1 : createPixCharge env db orderId userId =
        (.ok resp, txnInsert db (createdPixTxn env order resp af),
         [.findOrder orderId, .findTxnByOrder order.id, .antifraudCheck order.id,
          .gwCreatePix order.id, .txnCreate order.id]) := by
      unfold createPixCharge
      rw [hfind]
      simp only [hst]
      unfold createPixChargeTry
      simp [hown, hex, haf, hnd, hb, hgw]
    have hex2 : getExistingPaymentTransaction (txnInsert db (createdPixTxn env order resp af))
        order.id = some (createdPixTxn env order resp af) := by
      unfold getExistingPaymentTransaction at hex
      unfold getExistingPaymentTransaction txnInsert
      rw [find?_append_single _ _ _ hex]
      simp [createdPixTxn]
    have hfind2 : findOneById (txnInsert db (createdPixTxn env order resp af)) orderId =
        some order := hfind
    have hc2 : createPixCharge env (txnInsert db (createdPixTxn env order resp af))
        orderId userId =
        ((buildPixResponseFromTransaction env (createdPixTxn env order resp af)).1,
         txnInsert db (createdPixTxn env order resp af),
         [.findOrder orderId, .findTxnByOrder order.id] ++
           (buildPixResponseFromTransaction env (createdPixTxn env order resp af)).2) := by
      unfold createPixCharge
      rw [hfind2]
      simp [hst, hown, hex2]
    obtain ⟨r2, hr2, hid2⟩ := buildPix_ok_id env (createdPixTxn env order resp af)
      resp.transactionId rfl hrid
    refine ⟨by rw [hc1], ⟨r2, ?_, hid2⟩, ?_⟩
    · simp only [hc1, hc2]
      exact hr2
    · simp only [hc1, hc2]
      rcases buildPix_trace env (createdPixTxn env order resp af) with h | ⟨gid, h⟩ <;>
        rw [h] <;>
        simp [List.countP_append, List.countP_cons, Ev.isGatewayCreate]
  · intro env db orderId userId dto order af resp ht hh hcp hfind hst hown hex haf hnd hb hgw
      hrid hps
    have hc1 : processCreditCardPayment env db orderId userId dto =
        (.ok (.fresh resp), txnInsert db (createdCardTxn env order resp af),
         [.findOrder orderId, .findTxnByOrder order.id, .antifraudCheck order.id,
          .gwCreateCard order.id, .txnCreate order.id]) := by
      unfold processCreditCardPayment
      rw [hfind]
      simp only [hst]
      unfold processCreditCardPaymentTry
      simp [ht, hh, hcp, hown, hex, haf, hnd, hb, hgw, hps]
    have hex2 : getExistingPaymentTransaction (txnInsert db (createdCardTxn env order resp af))
        order.id = some (createdCardTxn env order resp af) := by
      unfold getExistingPaymentTransaction at hex
      unfold getExistingPaymentTransaction txnInsert
      rw [find?_append_single _ _ _ hex]
      simp [createdCardTxn]
    have hfind2 : findOneById (txnInsert db (createdCardTxn env order resp af)) orderId =
        some order := hfind
    have hc2 : processCreditCardPayment env (txnInsert db (createdCardTxn env order resp af))
        orderId userId dto =
        ((buildExistingDirectCardResponse env (createdCardTxn env order resp af)).1.map
            CardPaymentResult.existing,
         txnInsert db (createdCardTxn env order resp af),
         [.findOrder orderId, .findTxnByOrder order.id] ++
           (buildExistingDirectCardResponse env (createdCardTxn env order resp af)).2) := by
      unfold processCreditCardPayment
      rw [hfind2]
      simp [ht, hh, hcp, hst, hown, hex2]
    obtain ⟨rc, hrc, hidc⟩ := buildCard_ok_id env (createdCardTxn env order resp af)
      resp.transactionId rfl hrid
    refine ⟨by rw [hc1], ⟨.existing rc, ?_, ?_⟩, ?_⟩
    · simp only [hc1, hc2]
      show ((buildExistingDirectCardResponse env (createdCardTxn env order resp af)).1.map
        CardPaymentResult.existing) = .ok (.existing rc)
      rw [hrc]
      rfl
    · simp [CardPaymentResult.transactionId, hidc]
    · simp only [hc1, hc2]
      rcases buildCard_trace env (createdCardTxn env order resp af) with h | ⟨gid, h⟩ <;>
        rw [h] <;>
        simp [List.countP_append, List.countP_cons, Ev.isGatewayCreate]
  · intro env db orderId userId dto order af resp ht hh hcp hfind hst hown hex haf hnd hb hgw hps
    have hc1 : processCreditCardPayment env db orderId userId dto =
        (.ok (.fresh resp),
         orderStatusUpdate (txnInsert db (createdCardTxn env order resp af)) order.id
           OrderStatus.PAID,
         [.findOrder orderId, .findTxnByOrder order.id, .antifraudCheck order.id,
          .gwCreateCard order.id, .txnCreate order.id, .orderUpdate order.id] ++
           (cardConfirmationEmailBlock env order).2) := by
      unfold processCreditCardPayment
      rw [hfind]
      simp only [hst]
      unfold processCreditCardPaymentTry
      simp [ht, hh, hcp, hown, hex, haf, hnd, hb, hgw, hps]
    have hfindB : findOneById (txnInsert db (createdCardTxn env order resp af)) orderId =
        some order := hfind
    have hfind3 : findOneById
        (orderStatusUpdate (txnInsert db (createdCardTxn env order resp af)) order.id
          OrderStatus.PAID) orderId = some { order with status := OrderStatus.PAID } :=
      findOrder_after_orderStatusUpdate _ orderId OrderStatus.PAID order hfindB
    have hc2 : processCreditCardPayment env
        (orderStatusUpdate (txnInsert db (createdCardTxn env order resp af)) order.id
          OrderStatus.PAID) orderId userId dto =
        (.error (.badRequest "O pedido já foi pago ou está em outro status."),
         orderStatusUpdate (txnInsert db (createdCardTxn env order resp af)) order.id
           OrderStatus.PAID,
         [.findOrder orderId]) := by
      unfold processCreditCardPayment
      rw [hfind3]
      simp [ht, hh, hcp]
    refine ⟨by rw [hc1], ?_, ?_⟩
    · simp [hc1, hc2]
    · simp only [hc1, hc2]
      rcases cardEmail_trace env order with hm | ⟨em, hm⟩ <;> rw [hm] <;>
        simp [List.countP_append, List.countP_cons, Ev.isGatewayCreate]

/-- Witness for the amended C3: with the existing transaction `txn1` all
three operations leave the store unchanged and the PIX short-circuit returns
the stored snapshot carrying `CHK1`; two consecutive PIX initiations from an
empty store invoke gateway-create exactly once, as do two consecutive card
initiations with a non-PAID gateway answer; with the PAID-answering card
gateway the second call is rejected at the status check. -/
theorem claim3_amended_idempotent_initiation_witness :
    (createPixCharge env0 db1 "o1" "u1").2.1 = db1 ∧
    (createPixCharge env0 db1 "o1" "u1").1 = .ok (pixFallbackResponse txn1 "CHK1") ∧
    (processCreditCardPayment env0 db1 "o1" (some "u1") dtoValid).2.1 = db1 ∧
    (initiatePagSeguroRedirectCheckout env0 db1 (some "u1") "o1").2.1 = db1 ∧
    ((createPixCharge env0 db0 "o1" "u1").2.2 ++
      (createPixCharge env0 (createPixCharge env0 db0 "o1" "u1").2.1 "o1" "u1").2.2).countP
        Ev.isGatewayCreate = 1 ∧
    ((processCreditCardPayment envCardPending db0 "o1" (some "u1") dtoValid).2.2 ++
      (processCreditCardPayment envCardPending
        (processCreditCardPayment envCardPending db0 "o1" (some "u1") dtoValid).2.1
        "o1" (some "u1") dtoValid).2.2).countP Ev.isGatewayCreate = 1 ∧
    processCreditCardPayment env0
        (processCreditCardPayment env0 db0 "o1" (some "u1") dtoValid).2.1
        "o1" (some "u1") dtoValid =
      (.error (.badRequest "O pedido já foi pago ou está em outro status."),
       (processCreditCardPayment env0 db0 "o1" (some "u1") dtoValid).2.1,
       [.findOrder "o1"]) :=
  ⟨(claim3_amended_idempotent_initiation.1 env0 db1 "o1" "u1" order1 txn1 rfl rfl rfl rfl).1,
   (claim3_amended_idempotent_initiation.1 env0 db1 "o1" "u1" order1 txn1 rfl rfl rfl
      rfl).2.2.2 "CHK1" (.internal "Falha no PagSeguro: serviço indisponível") rfl (by decide) rfl,
   (claim3_amended_idempotent_initiation.2.1 env0 db1 "o1" (some "u1") dtoValid order1 txn1
      (by decide) (by decide) (by decide) rfl rfl rfl rfl).1,
   (claim3_amended_idempotent_initiation.2.2.1 env0 db1 "o1" (some "u1") order1 txn1
      rfl rfl rfl rfl).1,
   (claim3_amended_idempotent_initiation.2.2.2.1 env0 db0 "o1" "u1" order1
      { status := "APPROVED" } resp0 rfl rfl rfl rfl rfl (by decide) (by decide) rfl
      (by decide)).2.2,
   (claim3_amended_idempotent_initiation.2.2.2.2.1 envCardPending db0 "o1" (some "u1") dtoValid
      order1 { status := "APPROVED" } respCardPending (by decide) (by decide) (by decide)
      rfl rfl rfl rfl rfl (by decide) (by decide) rfl (by decide) (by decide)).2.2,
   (claim3_amended_idempotent_initiation.2.2.2.2.2 env0 db0 "o1" (some "u1") dtoValid
      order1 { status := "APPROVED" } respCardPaid (by decide) (by decide) (by decide)
      rfl rfl rfl rfl rfl (by decide) (by decide) rfl (by decide)).2.1⟩

/-- With the secret configured and a matching signature, the webhook handler
is its verified body. -/
theorem handle_unfold (env : Env) (cid sig body S : String)
    (hs : env.pagSeguroWebhookSecret = some S) (hsig : sig = env.hmacSha256Hex S body) :
    ∀ db : DB, handlePagSeguroNotification env db cid sig body =
      processVerifiedNotification env db cid := by
  intro db
  unfold handlePagSeguroNotification
  rw [hs]
  simp [hsig]

/-- The notification attempt's event trace does not depend on the mailer (the
send outcome is dropped; only whether a send was attempted is recorded). -/
theorem webhookEmailBlock_trace_env_free (env env' : Env) (db2 : DB)
    (order : OrderWithDetails) (s : OrderStatus) :
    (webhookEmailBlock env db2 order s).2 = (webhookEmailBlock env' db2 order s).2 := by
  unfold webhookEmailBlock
  cases hu : strTruthy order.userId
  · simp only [Bool.false_eq_true, if_false]
    cases hge : order.guestEmail with
    | none => simp
    | some em =>
      by_cases he : em = "" <;> by_cases hp : s = OrderStatus.PAID <;>
        by_cases hc : s = OrderStatus.CANCELLED <;> simp [he, hp, hc]
  · simp only [if_true]
    cases hfo : findOneById db2 order.id with
    | none => simp
    | some refreshed =>
      cases hru : refreshed.user with
      | none => simp [hru]
      | some u =>
        by_cases he : u.email = "" <;> by_cases hp : s = OrderStatus.PAID <;>
          by_cases hc : s = OrderStatus.CANCELLED <;> simp [hru, he, hp, hc]

/-- Claim C5: if the computed canonical status already equals both the stored
`Transaction.status` and the `Order.status`, the webhook handler returns the
no-op success with the store untouched and no write step; consequently, after
a successful status update, delivering the same gateway status again is a
reported no-op on the unchanged post-update store. -/
theorem claim5_reconciliation_idempotent :
    (∀ (env : Env) (db : DB) (cid sig body S : String) (cd : CheckoutDetails)
        (txn : Txn) (oid : String) (order : OrderWithDetails),
      env.pagSeguroWebhookSecret = some S → sig = env.hmacSha256Hex S body →
      env.getCheckoutDetails cid = .ok cd →
      findTxnByGatewayId db cid = some txn → txn.orderId = some oid →
      findOneById db oid = some order →
      txn.status = (mapPagSeguroStatusToOrderStatus (webhookGatewayStatus cd)).toStr →
      order.status = mapPagSeguroStatusToOrderStatus (webhookGatewayStatus cd) →
      handlePagSeguroNotification env db cid sig body =
        (.ok "Status já atualizado", db,
         [.gwGetCheckoutDetails cid, .findTxnByGateway cid])) ∧
    (∀ (env : Env) (db : DB) (cid sig body S : String) (cd : CheckoutDetails)
        (txn : Txn) (oid : String) (order : OrderWithDetails),
      env.pagSeguroWebhookSecret = some S → sig = env.hmacSha256Hex S body →
      env.getCheckoutDetails cid = .ok cd →
      findTxnByGatewayId db cid = some txn → txn.orderId = some oid →
      findOneById db oid = some order →
      ¬(txn.status = (mapPagSeguroStatusToOrderStatus (webhookGatewayStatus cd)).toStr ∧
        order.status = mapPagSeguroStatusToOrderStatus (webhookGatewayStatus cd)) →
      env.dbTxnOk = true →
      (handlePagSeguroNotification env db cid sig body).1 =
        .ok "Status do pedido atualizado com sucesso" ∧
      handlePagSeguroNotification env
          (handlePagSeguroNotification env db cid sig body).2.1 cid sig body =
        (.ok "Status já atualizado",
         (handlePagSeguroNotification env db cid sig body).2.1,
         [.gwGetCheckoutDetails cid, .findTxnByGateway cid])) := by
  constructor
  · intro env db cid sig body S cd txn oid order hs hsig hcd h1 h2 h3 hT hO
    rw [handle_unfold env cid sig body S hs hsig]
    unfold processVerifiedNotification
    rw [hcd]
    simp [h1, h2, h3, hT, hO]
  · intro env db cid sig body S cd txn oid order hs hsig hcd h1 h2 h3 hnoop hdb
    have hpv : processVerifiedNotification env db cid =
        (.ok "Status do pedido atualizado com sucesso",
         applyStatusUpdate db txn.id order.id
           (mapPagSeguroStatusToOrderStatus (webhookGatewayStatus cd)),
         [.gwGetCheckoutDetails cid, .findTxnByGateway cid,
          .dbAtomicStatusUpdate txn.id order.id] ++
           (webhookEmailBlock env
             (applyStatusUpdate db txn.id order.id
               (mapPagSeguroStatusToOrderStatus (webhookGatewayStatus cd)))
             order (mapPagSeguroStatusToOrderStatus (webhookGatewayStatus cd))).2) := by
      unfold processVerifiedNotification
      rw [hcd]
      simp [h1, h2, h3, hnoop, hdb]
    have h1b := findTxn_after_update db cid order.id
      (mapPagSeguroStatusToOrderStatus (webhookGatewayStatus cd)) txn h1
    have h3b := findOrder_after_update db txn.id oid
      (mapPagSeguroStatusToOrderStatus (webhookGatewayStatus cd)) order h3
    simp only [handle_unfold env cid sig body S hs hsig]
    rw [hpv]
    refine ⟨rfl, ?_⟩
    unfold processVerifiedNotification
    rw [hcd]
    simp [h1b, h2, h3b]

/-- Witness for C5: under `env0` the first correctly signed delivery of the
PAID status updates `db1`, and its duplicate is reported as the no-op on the
unchanged post-update store. -/
theorem claim5_reconciliation_idempotent_witness :
    (handlePagSeguroNotification env0 db1 "CHK1" "sec|body" "body").1 =
      .ok "Status do pedido atualizado com sucesso" ∧
    handlePagSeguroNotification env0
        (handlePagSeguroNotification env0 db1 "CHK1" "sec|body" "body").2.1
        "CHK1" "sec|body" "body" =
      (.ok "Status já atualizado",
       (handlePagSeguroNotification env0 db1 "CHK1" "sec|body" "body").2.1,
       [.gwGetCheckoutDetails "CHK1", .findTxnByGateway "CHK1"]) :=
  claim5_reconciliation_idempotent.2 env0 db1 "CHK1" "sec|body" "body" "sec"
    { id := some "CHK2", status := some "PAID", charges := [],
      links := [{ rel := "PAY", href := "http://pay2" }] }
    txn1 "o1" order1 rfl rfl rfl rfl rfl rfl (by decide) rfl

/-- Claim C6: whatever the webhook handler does, the located transaction and
its order move together: afterwards either both still carry their prior
statuses or both carry the same new canonical status — a state with the
transaction updated but its order not (or vice versa) is never reachable. -/
theorem claim6_atomic_status_update (env : Env) (db : DB) (cid sig body : String)
    (txn : Txn) (oid : String) (order : OrderWithDetails)
    (h1 : findTxnByGatewayId db cid = some txn) (h2 : txn.orderId = some oid)
    (h3 : findOneById db oid = some order) :
    (findTxnByGatewayId (handlePagSeguroNotification env db cid sig body).2.1 cid = some txn ∧
     findOneById (handlePagSeguroNotification env db cid sig body).2.1 oid = some order) ∨
    (∃ s : OrderStatus,
      findTxnByGatewayId (handlePagSeguroNotification env db cid sig body).2.1 cid =
        some { txn with status := s.toStr } ∧
      findOneById (handlePagSeguroNotification env db cid sig body).2.1 oid =
        some { order with status := s }) := by
  rcases hs : env.pagSeguroWebhookSecret with _ | S
  · have hh : handlePagSeguroNotification env db cid sig body =
        (.error (.internal
          "A variável de ambiente PAGSEGURO_WEBHOOK_SECRET é obrigatória para garantir a validade das notificações."),
         db, []) := by
      unfold handlePagSeguroNotification
      rw [hs]
    rw [hh]
    exact Or.inl ⟨h1, h3⟩
  · by_cases hsig : sig = env.hmacSha256Hex S body
    · rw [handle_unfold env cid sig body S hs hsig]
      rcases hcd : env.getCheckoutDetails cid with e | cd
      · have hh : processVerifiedNotification env db cid =
            (.error e, db, [.gwGetCheckoutDetails cid]) := by
          unfold processVerifiedNotification
          rw [hcd]
        rw [hh]
        exact Or.inl ⟨h1, h3⟩
      · by_cases hnoop : txn.status =
            (mapPagSeguroStatusToOrderStatus (webhookGatewayStatus cd)).toStr ∧
            order.status = mapPagSeguroStatusToOrderStatus (webhookGatewayStatus cd)
        · have hh : processVerifiedNotification env db cid =
              (.ok "Status já atualizado", db,
               [.gwGetCheckoutDetails cid, .findTxnByGateway cid]) := by
            unfold processVerifiedNotification
            rw [hcd]
            simp [h1, h2, h3, hnoop]
          rw [hh]
          exact Or.inl ⟨h1, h3⟩
        · rcases hdb : env.dbTxnOk with _ | _
          · have hh : processVerifiedNotification env db cid =
                (.error (.internal "Falha ao aplicar a atualização atômica de status."), db,
                 [.gwGetCheckoutDetails cid, .findTxnByGateway cid]) := by
              unfold processVerifiedNotification
              rw [hcd]
              simp [h1, h2, h3, hnoop, hdb]
            rw [hh]
            exact Or.inl ⟨h1, h3⟩
          · have hh : processVerifiedNotification env db cid =
                (.ok "Status do pedido atualizado com sucesso",
                 applyStatusUpdate db txn.id order.id
                   (mapPagSeguroStatusToOrderStatus (webhookGatewayStatus cd)),
                 [.gwGetCheckoutDetails cid, .findTxnByGateway cid,
                  .dbAtomicStatusUpdate txn.id order.id] ++
                   (webhookEmailBlock env
                     (applyStatusUpdate db txn.id order.id
                       (mapPagSeguroStatusToOrderStatus (webhookGatewayStatus cd)))
                     order (mapPagSeguroStatusToOrderStatus (webhookGatewayStatus cd))).2) := by
              unfold processVerifiedNotification
              rw [hcd]
              simp [h1, h2, h3, hnoop, hdb]
            rw [hh]
            exact Or.inr ⟨mapPagSeguroStatusToOrderStatus (webhookGatewayStatus cd),
              findTxn_after_update db cid order.id _ txn h1,
              findOrder_after_update db txn.id oid _ order h3⟩
    · have hh : handlePagSeguroNotification env db cid sig body =
          (.error (.unauthorized "Assinatura do webhook inválida."), db, []) := by
        unfold handlePagSeguroNotification
        rw [hs]
        simp [hsig]
      rw [hh]
      exact Or.inl ⟨h1, h3⟩

/-- Witness for C6 on the concrete update scenario: after the handler runs,
both the transaction (looked up by gateway id) and the order are still
present, having moved together. -/
theorem claim6_atomic_status_update_witness :
    findTxnByGatewayId (handlePagSeguroNotification env0 db1 "CHK1" "sec|body" "body").2.1
        "CHK1" ≠ none ∧
    findOneById (handlePagSeguroNotification env0 db1 "CHK1" "sec|body" "body").2.1 "o1" ≠
      none := by
  rcases claim6_atomic_status_update env0 db1 "CHK1" "sec|body" "body" txn1 "o1" order1
      rfl rfl rfl with ⟨ha, hb⟩ | ⟨s, ha, hb⟩ <;>
    exact ⟨by simp [ha], by simp [hb]⟩

/-- Claim C8: once the status update has committed, the webhook handler
returns success with the committed statuses in place, for every behaviour of
the recipient resolution and of the mailer (the environment is arbitrary);
moreover replacing the mailer by one that always fails changes nothing
observable — result, store and trace are identical — so a notification
failure is swallowed and never undoes or surfaces over the committed update. -/
theorem claim8_notification_failure_swallowed (env : Env) (db : DB)
    (cid sig body S : String) (cd : CheckoutDetails) (txn : Txn) (oid : String)
    (order : OrderWithDetails)
    (hs : env.pagSeguroWebhookSecret = some S) (hsig : sig = env.hmacSha256Hex S body)
    (hcd : env.getCheckoutDetails cid = .ok cd)
    (h1 : findTxnByGatewayId db cid = some txn) (h2 : txn.orderId = some oid)
    (h3 : findOneById db oid = some order)
    (hnoop : ¬(txn.status = (mapPagSeguroStatusToOrderStatus (webhookGatewayStatus cd)).toStr ∧
      order.status = mapPagSeguroStatusToOrderStatus (webhookGatewayStatus cd)))
    (hdb : env.dbTxnOk = true) :
    (handlePagSeguroNotification env db cid sig body).1 =
      .ok "Status do pedido atualizado com sucesso" ∧
    findTxnByGatewayId (handlePagSeguroNotification env db cid sig body).2.1 cid =
      some { txn with
        status := (mapPagSeguroStatusToOrderStatus (webhookGatewayStatus cd)).toStr } ∧
    findOneById (handlePagSeguroNotification env db cid sig body).2.1 oid =
      some { order with status := mapPagSeguroStatusToOrderStatus (webhookGatewayStatus cd) } ∧
    handlePagSeguroNotification
        { env with
          sendPaymentConfirmationEmail := fun _ _ _ => .error (.internal "falha no envio de e-mail")
          sendPaymentCancellationEmail := fun _ _ => .error (.internal "falha no envio de e-mail") }
        db cid sig body =
      handlePagSeguroNotification env db cid sig body := by
  have hpv : ∀ env₂ : Env, env₂.getCheckoutDetails cid = .ok cd → env₂.dbTxnOk = true →
      processVerifiedNotification env₂ db cid =
      (.ok "Status do pedido atualizado com sucesso",
       applyStatusUpdate db txn.id order.id
         (mapPagSeguroStatusToOrderStatus (webhookGatewayStatus cd)),
       [.gwGetCheckoutDetails cid, .findTxnByGateway cid,
        .dbAtomicStatusUpdate txn.id order.id] ++
         (webhookEmailBlock env₂
           (applyStatusUpdate db txn.id order.id
             (mapPagSeguroStatusToOrderStatus (webhookGatewayStatus cd)))
           order (mapPagSeguroStatusToOrderStatus (webhookGatewayStatus cd))).2) := by
    intro env₂ hcd₂ hdb₂
    unfold processVerifiedNotification
    rw [hcd₂]
    simp [h1, h2, h3, hnoop, hdb₂]
  simp only [handle_unfold env cid sig body S hs hsig]
  simp only [handle_unfold
    { env with
      sendPaymentConfirmationEmail := fun _ _ _ => .error (.internal "falha no envio de e-mail")
      sendPaymentCancellationEmail := fun _ _ => .error (.internal "falha no envio de e-mail") }
    cid sig body S hs hsig]
  rw [hpv env hcd hdb, hpv
    { env with
      sendPaymentConfirmationEmail := fun _ _ _ => .error (.internal "falha no envio de e-mail")
      sendPaymentCancellationEmail := fun _ _ => .error (.internal "falha no envio de e-mail") }
    hcd hdb]
  refine ⟨rfl,
    findTxn_after_update db cid order.id _ txn h1,
    findOrder_after_update db txn.id oid _ order h3, ?_⟩
  rw [webhookEmailBlock_trace_env_free
    { env with
      sendPaymentConfirmationEmail := fun _ _ _ => .error (.internal "falha no envio de e-mail")
      sendPaymentCancellationEmail := fun _ _ => .error (.internal "falha no envio de e-mail") }
    env
    (applyStatusUpdate db txn.id order.id
      (mapPagSeguroStatusToOrderStatus (webhookGatewayStatus cd)))
    order (mapPagSeguroStatusToOrderStatus (webhookGatewayStatus cd))]

/-- Witness for C8: the concrete committed update returns success and both
rows carry PAID afterwards, with an always-failing mailer indistinguishable
from the succeeding one. -/
theorem claim8_notification_failure_swallowed_witness :
    (handlePagSeguroNotification env0 db1 "CHK1" "sec|body" "body").1 =
      .ok "Status do pedido atualizado com sucesso" ∧
    handlePagSeguroNotification
        { env0 with
          sendPaymentConfirmationEmail := fun _ _ _ => .error (.internal "falha no envio de e-mail")
          sendPaymentCancellationEmail := fun _ _ => .error (.internal "falha no envio de e-mail") }
        db1 "CHK1" "sec|body" "body" =
      handlePagSeguroNotification env0 db1 "CHK1" "sec|body" "body" :=
  ⟨(claim8_notification_failure_swallowed env0 db1 "CHK1" "sec|body" "body" "sec"
      { id := some "CHK2", status := some "PAID", charges := [],
        links := [{ rel := "PAY", href := "http://pay2" }] }
      txn1 "o1" order1 rfl rfl rfl rfl rfl rfl (by decide) rfl).1,
   (claim8_notification_failure_swallowed env0 db1 "CHK1" "sec|body" "body" "sec"
      { id := some "CHK2", status := some "PAID", charges := [],
        links := [{ rel := "PAY", href := "http://pay2" }] }
      txn1 "o1" order1 rfl rfl rfl rfl rfl rfl (by decide) rfl).2.2.2⟩
